import Mathlib

/-!
Shallow embedding of the style-resolution and layout core of the
slop-browser rendering engine, together with proofs about the claims of
its specification.

Conventions of the embedding:
* Rust f32 values are modelled as exact rationals (ℚ); the arithmetic the
  engine performs (addition, subtraction, multiplication, division, min,
  max, clamp) is embedded exactly.
* Rust mutation is modelled by explicit state passing: a function that
  mutates a struct in Rust becomes a Lean function returning the updated
  value.
* Rust recursion over the DOM tree and the layout-box tree is modelled
  with an explicit fuel parameter (the Rust recursion terminates
  structurally on trees; every theorem below is either fuel-independent
  or carries an explicit fuel-sufficiency hypothesis).
* HashMap fields are modelled as association lists whose lookup returns
  the first matching entry; cons-on-insert therefore has exactly the
  overwrite semantics of HashMap insertion.
* External collaborators (the text-measurement oracle, and the CSS
  tokenizer used by the inline-style path) are passed in as function
  parameters, exactly as the Rust code receives a TextRenderer handle.
-/

/-! ## Numeric helpers: Rust f32 operations modelled on ℚ -/

/-- Rust f32 max (on rationals; the engine never produces NaN in the
modelled paths). -/
def rmax (a b : ℚ) : ℚ := max a b

/-- Rust f32 min. -/
def rmin (a b : ℚ) : ℚ := min a b

/-- Rust f32 clamp: clamp(self, lo, hi) for lo ≤ hi. -/
def rclamp (x lo hi : ℚ) : ℚ := rmax lo (rmin x hi)

/-- Rust f32::MAX, the value used by the flex algorithm as the available
main size of a column container. -/
def f32MAX : ℚ := 2 ^ 128 - 2 ^ 104

/-- Rust "as i32" conversion from f32: truncation toward zero with
saturation at the i32 bounds. -/
def ratToI32 (q : ℚ) : Int :=
  let t : Int := if q ≥ 0 then q.floor else q.ceil
  max (-2147483648) (min 2147483647 t)

/-- Rust "as u16" conversion from f32: truncation toward zero with
saturation at the u16 bounds. -/
def ratToU16 (q : ℚ) : Nat :=
  let t : Int := if q ≥ 0 then q.floor else q.ceil
  (max 0 (min 65535 t)).toNat

/-! ## String helpers (Rust std string operations) -/

/-- Rust str::split_whitespace: split on whitespace, dropping empty
substrings. -/
def splitWs (s : String) : List String :=
  (s.split (fun c => c.isWhitespace)).filter (fun t => t ≠ "")

/-- ASCII lowercasing of a string (models both str::to_lowercase and the
ASCII comparison helpers on the ASCII strings the engine handles). -/
def lowerStr (s : String) : String := String.mk (s.data.map Char.toLower)

/-- Rust str::eq_ignore_ascii_case. -/
def eqIgnoreAsciiCase (a b : String) : Bool := lowerStr a = lowerStr b

/-- Substring containment, Rust str::contains(&str). -/
def strContains (hay needle : String) : Bool :=
  hay.data.tails.any (fun t => needle.data.isPrefixOf t)

/-- Hex digit value. -/
def hexDigitVal (c : Char) : Option Nat :=
  if c.isDigit then some (c.toNat - 48)
  else if 97 ≤ (Char.toLower c).toNat ∧ (Char.toLower c).toNat ≤ 102 then
    some ((Char.toLower c).toNat - 87)
  else none

/-- Rust u8::from_str_radix(s, 16) on the 1- or 2-character slices used by
Color::from_hex: all characters must be hex digits and the string must be
nonempty. -/
def hexNat (cs : List Char) : Option Nat :=
  match cs with
  | [] => none
  | _ =>
    cs.foldl
      (fun acc c =>
        match acc, hexDigitVal c with
        | some a, some d => some (a * 16 + d)
        | _, _ => none)
      (some 0)

/-- Parse an unsigned decimal digit string to a Nat (helper). -/
def digitsNat (cs : List Char) : Option Nat :=
  match cs with
  | [] => none
  | _ =>
    cs.foldl
      (fun acc c =>
        match acc with
        | some a => if c.isDigit then some (a * 10 + (c.toNat - 48)) else none
        | none => none)
      (some 0)

/-- Rust str::parse::<u32>: optional leading plus sign, decimal digits,
result within the u32 range. -/
def parseU32 (s : String) : Option Nat :=
  let cs := if s.data.head? = some '+' then s.data.tail else s.data
  match digitsNat cs with
  | some n => if n ≤ 4294967295 then some n else none
  | none => none

/-- Rust str::parse::<f32> restricted to plain decimal literals
(optional sign, integer digits, optional fraction), which is the only
form the presentational-attribute paths feed it. -/
def parseF32 (s : String) : Option ℚ :=
  let (sign, cs) :=
    match s.data with
    | '-' :: rest => ((-1 : ℚ), rest)
    | '+' :: rest => ((1 : ℚ), rest)
    | cs => ((1 : ℚ), cs)
  let intPart := cs.takeWhile Char.isDigit
  let rest := cs.dropWhile Char.isDigit
  match rest with
  | [] =>
    match digitsNat intPart with
    | some n => some (sign * n)
    | none => none
  | '.' :: fracCs =>
    if fracCs.all Char.isDigit ∧ (intPart ≠ [] ∨ fracCs ≠ []) then
      let ip : ℚ := ((digitsNat intPart).getD 0 : Nat)
      let fp : ℚ := ((digitsNat fracCs).getD 0 : Nat)
      some (sign * (ip + fp / (10 ^ fracCs.length)))
    else none
  | _ => none

/-- Rust str::trim_end_matches(pat): repeatedly strip a trailing
occurrence of the pattern. -/
def trimEndMatches (s : String) (pat : String) : String :=
  String.mk (go s.data.reverse pat.data.reverse).reverse
where
  go (rs rp : List Char) : List Char :=
    if h : rp ≠ [] ∧ rp.isPrefixOf rs then go (rs.drop rp.length) rp else rs
  termination_by rs.length
  decreasing_by
    obtain ⟨hne, hpref⟩ := h
    have hle : rp.length ≤ rs.length := by
      have := List.isPrefixOf_iff_prefix.mp hpref
      exact this.length_le
    have hpos : 0 < rp.length := List.length_pos.mpr hne
    simp only [List.length_drop]
    omega

/-- Rust str::trim_start_matches(pat) for a single-character pattern. -/
def trimStartMatchesChar (s : String) (c : Char) : String :=
  String.mk (s.data.dropWhile (fun x => x = c))

/-! ## render/painter.rs: Color and Rect -/

/-- Color from render/painter.rs: four f32 channels. -/
structure Color where
  r : ℚ
  g : ℚ
  b : ℚ
  a : ℚ
deriving DecidableEq, Repr

def Color.WHITE : Color := ⟨1, 1, 1, 1⟩
def Color.BLACK : Color := ⟨0, 0, 0, 1⟩
def Color.RED : Color := ⟨1, 0, 0, 1⟩
def Color.GREEN : Color := ⟨0, 1, 0, 1⟩
def Color.BLUE : Color := ⟨0, 0, 1, 1⟩
def Color.TRANSPARENT : Color := ⟨0, 0, 0, 0⟩

/-- Color::rgb (u8 channels scaled to [0,1]). -/
def Color.rgb (r g b : Nat) : Color :=
  ⟨(r : ℚ) / 255, (g : ℚ) / 255, (b : ℚ) / 255, 1⟩

/-- Color::rgba. -/
def Color.rgba (r g b a : Nat) : Color :=
  ⟨(r : ℚ) / 255, (g : ℚ) / 255, (b : ℚ) / 255, (a : ℚ) / 255⟩

/-- Color::from_hex: strip leading number signs, then parse 3, 6 or 8 hex
digits. -/
def Color.from_hex (hex : String) : Option Color :=
  let cs := (trimStartMatchesChar hex '#').data
  match cs.length with
  | 3 =>
    match hexNat (cs.take 1), hexNat ((cs.drop 1).take 1), hexNat ((cs.drop 2).take 1) with
    | some r, some g, some b => some (Color.rgb (r * 17) (g * 17) (b * 17))
    | _, _, _ => none
  | 6 =>
    match hexNat (cs.take 2), hexNat ((cs.drop 2).take 2), hexNat ((cs.drop 4).take 2) with
    | some r, some g, some b => some (Color.rgb r g b)
    | _, _, _ => none
  | 8 =>
    match hexNat (cs.take 2), hexNat ((cs.drop 2).take 2), hexNat ((cs.drop 4).take 2),
        hexNat ((cs.drop 6).take 2) with
    | some r, some g, some b, some a => some (Color.rgba r g b a)
    | _, _, _, _ => none
  | _ => none

/-- Rect from render/painter.rs. -/
structure Rect where
  x : ℚ
  y : ℚ
  width : ℚ
  height : ℚ
deriving DecidableEq, Repr

def Rect.new (x y width height : ℚ) : Rect := ⟨x, y, width, height⟩

/-- Rect::contains: closed on the low edges, open on the high edges. -/
def Rect.contains (self : Rect) (px py : ℚ) : Bool :=
  px ≥ self.x ∧ px < self.x + self.width ∧ py ≥ self.y ∧ py < self.y + self.height

def Rect.right (self : Rect) : ℚ := self.x + self.width
def Rect.bottom (self : Rect) : ℚ := self.y + self.height

/-! ## layout/box_model.rs -/

structure EdgeSizes where
  top : ℚ
  right : ℚ
  bottom : ℚ
  left : ℚ
deriving DecidableEq, Repr

def EdgeSizes.new (top right bottom left : ℚ) : EdgeSizes := ⟨top, right, bottom, left⟩

def EdgeSizes.zero : EdgeSizes := ⟨0, 0, 0, 0⟩

def EdgeSizes.horizontal (self : EdgeSizes) : ℚ := self.left + self.right

def EdgeSizes.vertical (self : EdgeSizes) : ℚ := self.top + self.bottom

structure BoxDimensions where
  content : Rect
  padding : EdgeSizes
  border : EdgeSizes
  margin : EdgeSizes
deriving DecidableEq, Repr

def BoxDimensions.new : BoxDimensions :=
  ⟨Rect.new 0 0 0 0, EdgeSizes.zero, EdgeSizes.zero, EdgeSizes.zero⟩

def BoxDimensions.padding_box (self : BoxDimensions) : Rect :=
  ⟨self.content.x - self.padding.left,
   self.content.y - self.padding.top,
   self.content.width + self.padding.horizontal,
   self.content.height + self.padding.vertical⟩

def BoxDimensions.border_box (self : BoxDimensions) : Rect :=
  let p := self.padding_box
  ⟨p.x - self.border.left, p.y - self.border.top,
   p.width + self.border.horizontal, p.height + self.border.vertical⟩

def BoxDimensions.margin_box (self : BoxDimensions) : Rect :=
  let b := self.border_box
  ⟨b.x - self.margin.left, b.y - self.margin.top,
   b.width + self.margin.horizontal, b.height + self.margin.vertical⟩

/-! ## css/stylesheet.rs: values, declarations, rules -/

/-- Unit from css/stylesheet.rs (named CssUnit here because Unit is taken
in Lean). -/
inductive CssUnit where
  | px
  | em
  | rem
  | percent
  | vh
  | vw
deriving DecidableEq, Repr

/-- Value from css/stylesheet.rs. -/
inductive Value where
  | keyword (k : String)
  | length (v : ℚ) (unit : CssUnit)
  | color (c : Color)
  | number (n : ℚ)
  | percentage (p : ℚ)
  | auto
  | none
  | list (vs : List Value)

structure Declaration where
  property : String
  value : Value
  important : Bool

/-- Value::to_px. -/
def Value.to_px (self : Value) (parent_font_size viewport_width viewport_height : ℚ) :
    Option ℚ :=
  match self with
  | .length v unit =>
    match unit with
    | .px => some v
    | .em => some (v * parent_font_size)
    | .rem => some (v * 16)
    | .percent => Option.none
    | .vh => some (v * viewport_height / 100)
    | .vw => some (v * viewport_width / 100)
  | .number v => some v
  | .percentage p => some p
  | _ => Option.none

/-- Value::to_color, including the full named-color table. -/
def Value.to_color (self : Value) : Option Color :=
  match self with
  | .color c => some c
  | .keyword kw =>
    match lowerStr kw with
    | "black" => some Color.BLACK
    | "white" => some Color.WHITE
    | "red" => some (Color.rgb 255 0 0)
    | "green" => some (Color.rgb 0 128 0)
    | "blue" => some (Color.rgb 0 0 255)
    | "yellow" => some (Color.rgb 255 255 0)
    | "cyan" => some (Color.rgb 0 255 255)
    | "aqua" => some (Color.rgb 0 255 255)
    | "magenta" => some (Color.rgb 255 0 255)
    | "fuchsia" => some (Color.rgb 255 0 255)
    | "transparent" => some Color.TRANSPARENT
    | "gray" => some (Color.rgb 128 128 128)
    | "grey" => some (Color.rgb 128 128 128)
    | "darkgray" => some (Color.rgb 169 169 169)
    | "darkgrey" => some (Color.rgb 169 169 169)
    | "lightgray" => some (Color.rgb 211 211 211)
    | "lightgrey" => some (Color.rgb 211 211 211)
    | "dimgray" => some (Color.rgb 105 105 105)
    | "dimgrey" => some (Color.rgb 105 105 105)
    | "silver" => some (Color.rgb 192 192 192)
    | "gainsboro" => some (Color.rgb 220 220 220)
    | "whitesmoke" => some (Color.rgb 245 245 245)
    | "maroon" => some (Color.rgb 128 0 0)
    | "darkred" => some (Color.rgb 139 0 0)
    | "firebrick" => some (Color.rgb 178 34 34)
    | "crimson" => some (Color.rgb 220 20 60)
    | "indianred" => some (Color.rgb 205 92 92)
    | "lightcoral" => some (Color.rgb 240 128 128)
    | "salmon" => some (Color.rgb 250 128 114)
    | "lightsalmon" => some (Color.rgb 255 160 122)
    | "coral" => some (Color.rgb 255 127 80)
    | "tomato" => some (Color.rgb 255 99 71)
    | "orangered" => some (Color.rgb 255 69 0)
    | "pink" => some (Color.rgb 255 192 203)
    | "lightpink" => some (Color.rgb 255 182 193)
    | "hotpink" => some (Color.rgb 255 105 180)
    | "deeppink" => some (Color.rgb 255 20 147)
    | "mediumvioletred" => some (Color.rgb 199 21 133)
    | "palevioletred" => some (Color.rgb 219 112 147)
    | "orange" => some (Color.rgb 255 165 0)
    | "darkorange" => some (Color.rgb 255 140 0)
    | "gold" => some (Color.rgb 255 215 0)
    | "lightyellow" => some (Color.rgb 255 255 224)
    | "lemonchiffon" => some (Color.rgb 255 250 205)
    | "papayawhip" => some (Color.rgb 255 239 213)
    | "moccasin" => some (Color.rgb 255 228 181)
    | "peachpuff" => some (Color.rgb 255 218 185)
    | "palegoldenrod" => some (Color.rgb 238 232 170)
    | "khaki" => some (Color.rgb 240 230 140)
    | "darkkhaki" => some (Color.rgb 189 183 107)
    | "purple" => some (Color.rgb 128 0 128)
    | "indigo" => some (Color.rgb 75 0 130)
    | "darkmagenta" => some (Color.rgb 139 0 139)
    | "darkviolet" => some (Color.rgb 148 0 211)
    | "darkorchid" => some (Color.rgb 153 50 204)
    | "mediumorchid" => some (Color.rgb 186 85 211)
    | "orchid" => some (Color.rgb 218 112 214)
    | "violet" => some (Color.rgb 238 130 238)
    | "plum" => some (Color.rgb 221 160 221)
    | "lavender" => some (Color.rgb 230 230 250)
    | "thistle" => some (Color.rgb 216 191 216)
    | "blueviolet" => some (Color.rgb 138 43 226)
    | "mediumpurple" => some (Color.rgb 147 112 219)
    | "mediumslateblue" => some (Color.rgb 123 104 238)
    | "slateblue" => some (Color.rgb 106 90 205)
    | "darkslateblue" => some (Color.rgb 72 61 139)
    | "rebeccapurple" => some (Color.rgb 102 51 153)
    | "navy" => some (Color.rgb 0 0 128)
    | "darkblue" => some (Color.rgb 0 0 139)
    | "mediumblue" => some (Color.rgb 0 0 205)
    | "royalblue" => some (Color.rgb 65 105 225)
    | "cornflowerblue" => some (Color.rgb 100 149 237)
    | "lightsteelblue" => some (Color.rgb 176 196 222)
    | "steelblue" => some (Color.rgb 70 130 180)
    | "dodgerblue" => some (Color.rgb 30 144 255)
    | "deepskyblue" => some (Color.rgb 0 191 255)
    | "skyblue" => some (Color.rgb 135 206 235)
    | "lightskyblue" => some (Color.rgb 135 206 250)
    | "lightblue" => some (Color.rgb 173 216 230)
    | "powderblue" => some (Color.rgb 176 224 230)
    | "midnightblue" => some (Color.rgb 25 25 112)
    | "cadetblue" => some (Color.rgb 95 158 160)
    | "slategray" => some (Color.rgb 112 128 144)
    | "slategrey" => some (Color.rgb 112 128 144)
    | "lightslategray" => some (Color.rgb 119 136 153)
    | "lightslategrey" => some (Color.rgb 119 136 153)
    | "aliceblue" => some (Color.rgb 240 248 255)
    | "azure" => some (Color.rgb 240 255 255)
    | "lime" => some (Color.rgb 0 255 0)
    | "limegreen" => some (Color.rgb 50 205 50)
    | "forestgreen" => some (Color.rgb 34 139 34)
    | "darkgreen" => some (Color.rgb 0 100 0)
    | "seagreen" => some (Color.rgb 46 139 87)
    | "mediumseagreen" => some (Color.rgb 60 179 113)
    | "springgreen" => some (Color.rgb 0 255 127)
    | "mediumspringgreen" => some (Color.rgb 0 250 154)
    | "lightgreen" => some (Color.rgb 144 238 144)
    | "palegreen" => some (Color.rgb 152 251 152)
    | "darkseagreen" => some (Color.rgb 143 188 143)
    | "greenyellow" => some (Color.rgb 173 255 47)
    | "chartreuse" => some (Color.rgb 127 255 0)
    | "lawngreen" => some (Color.rgb 124 252 0)
    | "yellowgreen" => some (Color.rgb 154 205 50)
    | "olivedrab" => some (Color.rgb 107 142 35)
    | "olive" => some (Color.rgb 128 128 0)
    | "darkolivegreen" => some (Color.rgb 85 107 47)
    | "mediumaquamarine" => some (Color.rgb 102 205 170)
    | "honeydew" => some (Color.rgb 240 255 240)
    | "mintcream" => some (Color.rgb 245 255 250)
    | "teal" => some (Color.rgb 0 128 128)
    | "darkcyan" => some (Color.rgb 0 139 139)
    | "lightcyan" => some (Color.rgb 224 255 255)
    | "aquamarine" => some (Color.rgb 127 255 212)
    | "turquoise" => some (Color.rgb 64 224 208)
    | "mediumturquoise" => some (Color.rgb 72 209 204)
    | "darkturquoise" => some (Color.rgb 0 206 209)
    | "paleturquoise" => some (Color.rgb 175 238 238)
    | "brown" => some (Color.rgb 165 42 42)
    | "saddlebrown" => some (Color.rgb 139 69 19)
    | "sienna" => some (Color.rgb 160 82 45)
    | "chocolate" => some (Color.rgb 210 105 30)
    | "peru" => some (Color.rgb 205 133 63)
    | "sandybrown" => some (Color.rgb 244 164 96)
    | "burlywood" => some (Color.rgb 222 184 135)
    | "tan" => some (Color.rgb 210 180 140)
    | "rosybrown" => some (Color.rgb 188 143 143)
    | "goldenrod" => some (Color.rgb 218 165 32)
    | "darkgoldenrod" => some (Color.rgb 184 134 11)
    | "navajowhite" => some (Color.rgb 255 222 173)
    | "wheat" => some (Color.rgb 245 222 179)
    | "blanchedalmond" => some (Color.rgb 255 235 205)
    | "bisque" => some (Color.rgb 255 228 196)
    | "cornsilk" => some (Color.rgb 255 248 220)
    | "beige" => some (Color.rgb 245 245 220)
    | "antiquewhite" => some (Color.rgb 250 235 215)
    | "linen" => some (Color.rgb 250 240 230)
    | "floralwhite" => some (Color.rgb 255 250 240)
    | "oldlace" => some (Color.rgb 253 245 230)
    | "ivory" => some (Color.rgb 255 255 240)
    | "seashell" => some (Color.rgb 255 245 238)
    | "snow" => some (Color.rgb 255 250 250)
    | "mistyrose" => some (Color.rgb 255 228 225)
    | "lavenderblush" => some (Color.rgb 255 240 245)
    | "ghostwhite" => some (Color.rgb 248 248 255)
    | _ => Option.none
  | _ => Option.none

/-- Value::as_keyword. -/
def Value.as_keyword (self : Value) : Option String :=
  match self with
  | .keyword k => some k
  | _ => Option.none

/-! ## css/selector.rs: selector data model -/

inductive Combinator where
  | descendant
  | child
deriving DecidableEq, Repr

inductive PseudoClass where
  | firstChild
  | lastChild
  | nthChild (a b : Int)
  | onlyChild
deriving DecidableEq, Repr

/-- AttributeSelector from css/selector.rs (constructor names adjusted
where Rust names collide with Lean keywords). -/
inductive AttributeSelector where
  | attrExists (attr : String)
  | equals (attr val : String)
  | contains (attr val : String)
  | startsWith (attr val : String)
  | endsWith (attr val : String)
  | wordMatch (attr val : String)
deriving DecidableEq, Repr

inductive SimpleSelector where
  | universal
  | tag (t : String)
  | cls (c : String)
  | id (i : String)
  | attribute (a : AttributeSelector)
  | pseudoClass (p : PseudoClass)
deriving DecidableEq, Repr

/-- A compound selector: a set of simple selectors with no combinators. -/
structure CompoundSelector where
  simple_selectors : List SimpleSelector
deriving DecidableEq, Repr

/-- A complex selector: parts stored right-to-left, the first element the
subject (with no combinator), subsequent elements carrying the combinator
that connects them to the previous part. -/
structure ComplexSelector where
  parts : List (CompoundSelector × Option Combinator)
deriving DecidableEq, Repr

/-- Legacy Selector wrapper from css/selector.rs. -/
structure Selector where
  complex : ComplexSelector
deriving DecidableEq, Repr

structure Specificity where
  ids : Nat
  classes : Nat
  tags : Nat
deriving DecidableEq, Repr

def Specificity.new : Specificity := ⟨0, 0, 0⟩

/-- The derived lexicographic order on Specificity (field order ids,
classes, tags), as produced by the Rust derive of PartialOrd/Ord. -/
def Specificity.lt (a b : Specificity) : Bool :=
  a.ids < b.ids ∨ (a.ids = b.ids ∧ (a.classes < b.classes ∨
    (a.classes = b.classes ∧ a.tags < b.tags)))

/-- CompoundSelector::specificity. -/
def CompoundSelector.specificity (self : CompoundSelector) : Specificity :=
  self.simple_selectors.foldl
    (fun acc s =>
      match s with
      | .id _ => { acc with ids := acc.ids + 1 }
      | .cls _ => { acc with classes := acc.classes + 1 }
      | .attribute _ => { acc with classes := acc.classes + 1 }
      | .pseudoClass _ => { acc with classes := acc.classes + 1 }
      | .tag _ => { acc with tags := acc.tags + 1 }
      | .universal => acc)
    Specificity.new

/-- ComplexSelector::specificity: sum over all parts. -/
def ComplexSelector.specificity (self : ComplexSelector) : Specificity :=
  self.parts.foldl
    (fun total part =>
      let spec := part.1.specificity
      ⟨total.ids + spec.ids, total.classes + spec.classes, total.tags + spec.tags⟩)
    Specificity.new

def Selector.specificity (self : Selector) : Specificity :=
  self.complex.specificity

/-- ComplexSelector::subject: the rightmost compound selector. -/
def ComplexSelector.subject (self : ComplexSelector) : Option CompoundSelector :=
  (self.parts.head?).map (fun p => p.1)

/-- Selector::simple_selectors: all simple selectors of all parts,
flattened in the stored right-to-left part order. -/
def Selector.simple_selectors (self : Selector) : List SimpleSelector :=
  self.complex.parts.flatMap (fun p => p.1.simple_selectors)

/-- nth_child_matches from css/selector.rs; the Rust % is the truncating
remainder, Int.tmod. -/
def nth_child_matches (a b index : Int) : Bool :=
  if a = 0 then index = b
  else
    let diff := index - b
    if a > 0 then diff ≥ 0 ∧ diff.tmod a = 0
    else diff ≤ 0 ∧ diff.tmod a = 0

/-! ## css/stylesheet.rs: rules and stylesheets -/

structure Rule where
  selectors : List Selector
  declarations : List Declaration

structure Stylesheet where
  rules : List Rule

/-! ## dom/node.rs and dom/document.rs -/

abbrev NodeId := Nat

/-- ElementData from dom/node.rs; the lazily cached parsed class list is
an optimization whose semantics is the classes function below. -/
structure ElementData where
  tag_name : String
  attributes : List (String × String)
deriving DecidableEq, Repr

inductive NodeData where
  | document
  | element (e : ElementData)
  | text (s : String)
  | comment (s : String)
deriving DecidableEq, Repr

structure Node where
  id : NodeId
  data : NodeData
  parent : Option NodeId
  children : List NodeId
deriving DecidableEq, Repr

/-- ElementData::get_attribute (HashMap lookup; first match in the
association list). -/
def ElementData.get_attribute (self : ElementData) (name : String) : Option String :=
  self.attributes.lookup name

/-- ElementData::id. -/
def ElementData.attr_id (self : ElementData) : Option String :=
  self.get_attribute "id"

/-- ElementData::classes: whitespace-split of the class attribute. -/
def ElementData.classes (self : ElementData) : List String :=
  ((self.get_attribute "class").map splitWs).getD []

def Node.as_element (self : Node) : Option ElementData :=
  match self.data with
  | .element e => some e
  | _ => Option.none

def Node.is_element (self : Node) : Bool := (self.as_element).isSome

def Node.tag_name? (self : Node) : Option String :=
  (self.as_element).map (fun e => e.tag_name)

/-- Document from dom/document.rs: arena of nodes, node id = index. -/
structure Document where
  nodes : List Node
  root : NodeId
deriving DecidableEq, Repr

/-- Document::get_node. -/
def Document.get_node (self : Document) (id : NodeId) : Option Node :=
  self.nodes.get? id

/-- Document::children (empty slice on a missing node). -/
def Document.childrenOf (self : Document) (id : NodeId) : List NodeId :=
  ((self.get_node id).map (fun n => n.children)).getD []

/-- Document::parent. -/
def Document.parentOf (self : Document) (id : NodeId) : Option NodeId :=
  (self.get_node id).bind (fun n => n.parent)

/-- Document::get_elements_by_tag_name: all nodes, in arena order, whose
tag equals the lowercased query. -/
def Document.get_elements_by_tag_name (self : Document) (tag : String) : List NodeId :=
  let tagLower := lowerStr tag
  (self.nodes.filter (fun n => n.tag_name? = some tagLower)).map (fun n => n.id)

/-- Document::get_body: the first body element. -/
def Document.get_body (self : Document) : Option NodeId :=
  (self.get_elements_by_tag_name "body").head?

/-- Document::element_index: 1-based index of an element among its
element siblings. -/
def Document.element_index (self : Document) (node_id : NodeId) : Option Nat :=
  match self.get_node node_id with
  | Option.none => Option.none
  | some node =>
    if ¬ node.is_element then Option.none
    else
      match node.parent with
      | Option.none => Option.none
      | some parent_id =>
        let siblings := self.childrenOf parent_id
        (siblings.foldl
          (fun (st : Nat × Option Nat) sibling_id =>
            match st with
            | (count, some r) => (count, some r)
            | (count, Option.none) =>
              match self.get_node sibling_id with
              | some sibling =>
                if sibling.is_element then
                  if sibling_id = node_id then (count + 1, some (count + 1))
                  else (count + 1, Option.none)
                else (count, Option.none)
              | Option.none => (count, Option.none))
          (0, Option.none)).2

/-- Document::is_last_element_child. -/
def Document.is_last_element_child (self : Document) (node_id : NodeId) : Bool :=
  match self.get_node node_id with
  | Option.none => false
  | some node =>
    if ¬ node.is_element then false
    else
      match node.parent with
      | Option.none => false
      | some parent_id =>
        let siblings := self.childrenOf parent_id
        match (siblings.reverse.find? (fun sid =>
            match self.get_node sid with
            | some s => s.is_element
            | Option.none => false)) with
        | some lastElem => lastElem = node_id
        | Option.none => false

/-! ## css/selector.rs: matching -/

/-- CompoundSelector::matches against a DOM node. -/
def CompoundSelector.matches (self : CompoundSelector) (doc : Document)
    (node_id : NodeId) : Bool :=
  match doc.get_node node_id with
  | Option.none => false
  | some node =>
    match node.as_element with
    | Option.none => false
    | some element =>
      self.simple_selectors.all (fun sel =>
        match sel with
        | .universal => true
        | .tag t => eqIgnoreAsciiCase element.tag_name t
        | .cls c => element.classes.any (fun x => x = c)
        | .id i => element.attr_id = some i
        | .attribute attrSel =>
          match attrSel with
          | .attrExists attr => (element.get_attribute attr).isSome
          | .equals attr val => element.get_attribute attr = some val
          | .contains attr val =>
            ((element.get_attribute attr).map (fun v => strContains v val)).getD false
          | .startsWith attr val =>
            ((element.get_attribute attr).map
              (fun v => val.data.isPrefixOf v.data)).getD false
          | .endsWith attr val =>
            ((element.get_attribute attr).map
              (fun v => val.data.isSuffixOf v.data)).getD false
          | .wordMatch attr val =>
            ((element.get_attribute attr).map
              (fun v => (splitWs v).any (fun word => word = val))).getD false
        | .pseudoClass pseudo =>
          match pseudo with
          | .firstChild => doc.element_index node_id = some 1
          | .lastChild => doc.is_last_element_child node_id
          | .onlyChild =>
            doc.element_index node_id = some 1 ∧ doc.is_last_element_child node_id
          | .nthChild a b =>
            match doc.element_index node_id with
            | some index => nth_child_matches a b (index : Int)
            | Option.none => false)

mutual

/-- ComplexSelector::match_ancestors: walk the remaining parts up the
ancestor chain; a Child combinator requires the immediate parent, a
Descendant combinator searches all ancestors with backtracking. The fuel
bounds the number of parent steps taken; any fuel at least
(number of DOM nodes + 1) * (number of selector parts + 1) is sufficient
on an acyclic document. -/
def ComplexSelector.match_ancestors (self : ComplexSelector) (doc : Document) :
    Nat → NodeId → Nat → Bool
  | 0, _, _ => false
  | fuel + 1, node_id, part_index =>
    match self.parts.get? part_index with
    | Option.none => true
    | some (compound, comb) =>
      match comb.getD Combinator.descendant with
      | .child =>
        match doc.parentOf node_id with
        | some parent_id =>
          compound.matches doc parent_id ∧
            self.match_ancestors doc fuel parent_id (part_index + 1)
        | Option.none => false
      | .descendant =>
        self.descendant_search doc fuel (doc.parentOf node_id) compound part_index

/-- The while-let loop of the Descendant arm of match_ancestors: try each
ancestor in turn, continuing the match at the first one that both matches
the compound and lets the rest of the chain match; otherwise backtrack to
an elder ancestor. -/
def ComplexSelector.descendant_search (self : ComplexSelector) (doc : Document) :
    Nat → Option NodeId → CompoundSelector → Nat → Bool
  | 0, _, _, _ => false
  | fuel + 1, current, compound, part_index =>
    match current with
    | Option.none => false
    | some ancestor_id =>
      if compound.matches doc ancestor_id ∧
          self.match_ancestors doc fuel ancestor_id (part_index + 1) then
        true
      else
        self.descendant_search doc fuel (doc.parentOf ancestor_id) compound part_index

end

/-- ComplexSelector::matches with an explicit fuel for the ancestor walk. -/
def ComplexSelector.matchesFuel (self : ComplexSelector) (doc : Document)
    (fuel : Nat) (node_id : NodeId) : Bool :=
  match self.parts.head? with
  | Option.none => false
  | some (subject, _) =>
    if ¬ subject.matches doc node_id then false
    else if self.parts.length = 1 then true
    else self.match_ancestors doc fuel node_id 1

/-- ComplexSelector::matches, with the canonical sufficient fuel. -/
def ComplexSelector.matches (self : ComplexSelector) (doc : Document)
    (node_id : NodeId) : Bool :=
  self.matchesFuel doc ((doc.nodes.length + 1) * (self.parts.length + 1)) node_id

/-- Selector::matches. -/
def Selector.matches (self : Selector) (doc : Document) (node_id : NodeId) : Bool :=
  self.complex.matches doc node_id

/-! ## css/index.rs: the selector index -/

/-- An indexed rule referencing the original rule with its precomputed
specificity and global source order. -/
structure IndexedRule where
  rule : Rule
  selector : Selector
  specificity : Specificity
  source_order : Nat

/-- Internal key type for indexing. -/
inductive IndexKey where
  | id (s : String)
  | cls (s : String)
  | tag (s : String)
  | universal
deriving DecidableEq, Repr

/-- SelectorIndex::get_index_key. Priority: ID > Class > Tag > Universal.
Note: Selector::simple_selectors flattens the simple selectors of every
part of the complex selector, not only the subject compound. -/
def SelectorIndex.get_index_key (selector : Selector) : IndexKey :=
  match selector.simple_selectors.find? (fun s =>
      match s with
      | .id _ => true
      | _ => false) with
  | some (.id i) => IndexKey.id i
  | _ =>
    match selector.simple_selectors.find? (fun s =>
        match s with
        | .cls _ => true
        | _ => false) with
    | some (.cls c) => IndexKey.cls c
    | _ =>
      match selector.simple_selectors.find? (fun s =>
          match s with
          | .tag _ => true
          | _ => false) with
      | some (.tag t) => IndexKey.tag t
      | _ => IndexKey.universal

/-- The SelectorIndex HashMaps are modelled as association lists of
buckets; bucketPush appends to the bucket of a key, creating it if
absent (HashMap entry().or_default().push()). -/
def bucketPush (m : List (String × List IndexedRule)) (key : String)
    (r : IndexedRule) : List (String × List IndexedRule) :=
  match m with
  | [] => [(key, [r])]
  | (k, rs) :: rest =>
    if k = key then (k, rs ++ [r]) :: rest
    else (k, rs) :: bucketPush rest key r

def bucketGet (m : List (String × List IndexedRule)) (key : String) :
    Option (List IndexedRule) :=
  m.lookup key

structure SelectorIndex where
  by_id : List (String × List IndexedRule)
  by_class : List (String × List IndexedRule)
  by_tag : List (String × List IndexedRule)
  universal : List IndexedRule

/-- SelectorIndex::build: one pass over all rules of all stylesheets, one
IndexedRule per (rule, selector) pair, consecutive source_order values. -/
def SelectorIndex.build (stylesheets : List Stylesheet) : SelectorIndex :=
  let step := fun (st : SelectorIndex × Nat) (rule : Rule) =>
    rule.selectors.foldl
      (fun (st : SelectorIndex × Nat) selector =>
        let (idx, source_order) := st
        let indexed_rule : IndexedRule :=
          { rule := rule, selector := selector,
            specificity := selector.specificity, source_order := source_order }
        let idx2 :=
          match SelectorIndex.get_index_key selector with
          | .id i => { idx with by_id := bucketPush idx.by_id i indexed_rule }
          | .cls c => { idx with by_class := bucketPush idx.by_class c indexed_rule }
          | .tag t => { idx with by_tag := bucketPush idx.by_tag t indexed_rule }
          | .universal => { idx with universal := idx.universal ++ [indexed_rule] }
        (idx2, source_order + 1))
      st
  ((stylesheets.foldl
    (fun st sheet => sheet.rules.foldl step st)
    (⟨[], [], [], []⟩, 0))).1

/-- SelectorIndex::get_candidate_rules: union of the id bucket (when the
element has an id), the bucket of every class, the lowercased-tag bucket
and the universal bucket. -/
def SelectorIndex.get_candidate_rules (self : SelectorIndex) (id : Option String)
    (classes : List String) (tag_name : String) : List IndexedRule :=
  let candidates : List IndexedRule := []
  let candidates :=
    match id with
    | some i =>
      match bucketGet self.by_id i with
      | some rules => candidates ++ rules
      | Option.none => candidates
    | Option.none => candidates
  let candidates :=
    classes.foldl
      (fun acc cls =>
        match bucketGet self.by_class cls with
        | some rules => acc ++ rules
        | Option.none => acc)
      candidates
  let candidates :=
    match bucketGet self.by_tag (lowerStr tag_name) with
    | some rules => candidates ++ rules
    | Option.none => candidates
  candidates ++ self.universal

/-! ## css/computed.rs: the computed style model -/

inductive Display where
  | block
  | inline
  | inlineBlock
  | none
  | flex
  | grid
  | table
  | tableRow
  | tableCell
  | tableRowGroup
  | tableHeaderGroup
  | tableFooterGroup
  | tableCaption
  | tableColumn
  | tableColumnGroup
deriving DecidableEq, Repr

inductive FlexDirection where
  | row
  | rowReverse
  | column
  | columnReverse
deriving DecidableEq, Repr

inductive FlexWrap where
  | noWrap
  | wrap
  | wrapReverse
deriving DecidableEq, Repr

inductive JustifyContent where
  | flexStart
  | flexEnd
  | center
  | spaceBetween
  | spaceAround
  | spaceEvenly
deriving DecidableEq, Repr

inductive AlignItems where
  | flexStart
  | flexEnd
  | center
  | stretch
  | baseline
deriving DecidableEq, Repr

inductive AlignContent where
  | flexStart
  | flexEnd
  | center
  | spaceBetween
  | spaceAround
  | stretch
deriving DecidableEq, Repr

inductive GridTrackSize where
  | px (v : ℚ)
  | fr (v : ℚ)
  | auto
  | minContent
  | maxContent
deriving DecidableEq, Repr

structure GridPlacement where
  start : Option Int
  ending : Option Int
  span : Option Nat
deriving DecidableEq, Repr

def GridPlacement.default : GridPlacement := ⟨Option.none, Option.none, Option.none⟩

structure BoxShadow where
  offset_x : ℚ
  offset_y : ℚ
  blur_radius : ℚ
  spread_radius : ℚ
  color : Color
  inset : Bool
deriving DecidableEq, Repr

inductive Overflow where
  | visible
  | hidden
  | scroll
  | auto
deriving DecidableEq, Repr

inductive BoxSizing where
  | contentBox
  | borderBox
deriving DecidableEq, Repr

inductive WhiteSpace where
  | normal
  | noWrap
  | pre
  | preWrap
  | preLine
deriving DecidableEq, Repr

inductive VerticalAlign where
  | baseline
  | top
  | middle
  | bottom
  | textTop
  | textBottom
  | sub
  | sup
deriving DecidableEq, Repr

inductive Visibility where
  | visible
  | hidden
  | collapse
deriving DecidableEq, Repr

inductive BorderStyle where
  | none
  | solid
  | dashed
  | dotted
  | double
  | groove
  | ridge
  | inset
  | outset
  | hidden
deriving DecidableEq, Repr

inductive FontWeight where
  | normal
  | bold
  | numeric (w : Nat)
deriving DecidableEq, Repr

inductive TextAlign where
  | left
  | center
  | right
  | justify
deriving DecidableEq, Repr

inductive TextDecoration where
  | none
  | underline
  | lineThrough
  | overline
deriving DecidableEq, Repr

inductive CssPosition where
  | static
  | relative
  | absolute
  | fixed
deriving DecidableEq, Repr

/-- ComputedStyle from css/computed.rs, all fields. -/
structure ComputedStyle where
  display : Display
  margin_top : ℚ
  margin_right : ℚ
  margin_bottom : ℚ
  margin_left : ℚ
  padding_top : ℚ
  padding_right : ℚ
  padding_bottom : ℚ
  padding_left : ℚ
  border_top_width : ℚ
  border_right_width : ℚ
  border_bottom_width : ℚ
  border_left_width : ℚ
  border_color : Color
  width : Option ℚ
  height : Option ℚ
  min_width : Option ℚ
  min_height : Option ℚ
  max_width : Option ℚ
  max_height : Option ℚ
  color : Color
  background_color : Color
  font_size : ℚ
  font_weight : FontWeight
  text_align : TextAlign
  line_height : ℚ
  text_decoration : TextDecoration
  position : CssPosition
  top : Option ℚ
  right : Option ℚ
  bottom : Option ℚ
  left : Option ℚ
  flex_direction : FlexDirection
  flex_wrap : FlexWrap
  justify_content : JustifyContent
  align_items : AlignItems
  align_content : AlignContent
  gap : ℚ
  row_gap : ℚ
  column_gap : ℚ
  flex_grow : ℚ
  flex_shrink : ℚ
  flex_basis : Option ℚ
  align_self : Option AlignItems
  order : Int
  grid_template_columns : List GridTrackSize
  grid_template_rows : List GridTrackSize
  grid_auto_columns : GridTrackSize
  grid_auto_rows : GridTrackSize
  grid_gap : ℚ
  grid_row_gap : ℚ
  grid_column_gap : ℚ
  grid_column : GridPlacement
  grid_row : GridPlacement
  border_radius : ℚ
  border_top_left_radius : ℚ
  border_top_right_radius : ℚ
  border_bottom_left_radius : ℚ
  border_bottom_right_radius : ℚ
  box_shadow : Option BoxShadow
  opacity : ℚ
  overflow : Overflow
  overflow_x : Overflow
  overflow_y : Overflow
  box_sizing : BoxSizing
  white_space : WhiteSpace
  vertical_align : VerticalAlign
  visibility : Visibility
  z_index : Option Int
  border_style : BorderStyle
  border_top_style : BorderStyle
  border_right_style : BorderStyle
  border_bottom_style : BorderStyle
  border_left_style : BorderStyle
  border_collapse : Bool
  border_spacing : ℚ

/-- ComputedStyle::default. -/
def ComputedStyle.default : ComputedStyle where
  display := .block
  margin_top := 0
  margin_right := 0
  margin_bottom := 0
  margin_left := 0
  padding_top := 0
  padding_right := 0
  padding_bottom := 0
  padding_left := 0
  border_top_width := 0
  border_right_width := 0
  border_bottom_width := 0
  border_left_width := 0
  border_color := Color.BLACK
  width := Option.none
  height := Option.none
  min_width := Option.none
  min_height := Option.none
  max_width := Option.none
  max_height := Option.none
  color := Color.BLACK
  background_color := Color.TRANSPARENT
  font_size := 16
  font_weight := .normal
  text_align := .left
  line_height := 1.2
  text_decoration := .none
  position := .static
  top := Option.none
  right := Option.none
  bottom := Option.none
  left := Option.none
  flex_direction := .row
  flex_wrap := .noWrap
  justify_content := .flexStart
  align_items := .stretch
  align_content := .flexStart
  gap := 0
  row_gap := 0
  column_gap := 0
  flex_grow := 0
  flex_shrink := 1
  flex_basis := Option.none
  align_self := Option.none
  order := 0
  grid_template_columns := []
  grid_template_rows := []
  grid_auto_columns := .auto
  grid_auto_rows := .auto
  grid_gap := 0
  grid_row_gap := 0
  grid_column_gap := 0
  grid_column := GridPlacement.default
  grid_row := GridPlacement.default
  border_radius := 0
  border_top_left_radius := 0
  border_top_right_radius := 0
  border_bottom_left_radius := 0
  border_bottom_right_radius := 0
  box_shadow := Option.none
  opacity := 1
  overflow := .visible
  overflow_x := .visible
  overflow_y := .visible
  box_sizing := .contentBox
  white_space := .normal
  vertical_align := .baseline
  visibility := .visible
  z_index := Option.none
  border_style := .none
  border_top_style := .none
  border_right_style := .none
  border_bottom_style := .none
  border_left_style := .none
  border_collapse := false
  border_spacing := 0

/-- ComputedStyle::parse_border_style. -/
def ComputedStyle.parse_border_style (kw : String) : BorderStyle :=
  match kw with
  | "none" => .none
  | "solid" => .solid
  | "dashed" => .dashed
  | "dotted" => .dotted
  | "double" => .double
  | "groove" => .groove
  | "ridge" => .ridge
  | "inset" => .inset
  | "outset" => .outset
  | "hidden" => .hidden
  | _ => .none

/-- ComputedStyle::parse_border_shorthand: scan the value list, trying
each value as a border style keyword, then a color, then a width, then a
keyword width. -/
def ComputedStyle.parse_border_shorthand (value : Value)
    (parent_font_size vw vh : ℚ) :
    Option (Option ℚ × Option BorderStyle × Option Color) :=
  let values :=
    match value with
    | .list vs => vs
    | v => [v]
  some (values.foldl
    (fun (acc : Option ℚ × Option BorderStyle × Option Color) v =>
      let (width, style, color) := acc
      let styled :=
        match v.as_keyword with
        | some kw =>
          let parsed_style := ComputedStyle.parse_border_style kw
          if parsed_style ≠ BorderStyle.none ∨ kw = "none" then
            some (width, some parsed_style, color)
          else Option.none
        | Option.none => Option.none
      match styled with
      | some r => r
      | Option.none =>
        match v.to_color with
        | some c => (width, style, some c)
        | Option.none =>
          match v.to_px parent_font_size vw vh with
          | some px => (some px, style, color)
          | Option.none =>
            match v.as_keyword with
            | some "thin" => (some 1, style, color)
            | some "medium" => (some 3, style, color)
            | some "thick" => (some 5, style, color)
            | _ => (width, style, color))
    (Option.none, Option.none, Option.none))

/-- ComputedStyle::apply_border_shorthand. -/
def ComputedStyle.apply_border_shorthand (self : ComputedStyle) (value : Value)
    (parent_font_size vw vh : ℚ) : ComputedStyle :=
  match ComputedStyle.parse_border_shorthand value parent_font_size vw vh with
  | Option.none => self
  | some (width, style, color) =>
    let self :=
      match width with
      | some w =>
        { self with border_top_width := w, border_right_width := w,
                    border_bottom_width := w, border_left_width := w }
      | Option.none => self
    let self :=
      match style with
      | some s =>
        { self with border_style := s, border_top_style := s,
                    border_right_style := s, border_bottom_style := s,
                    border_left_style := s }
      | Option.none => self
    match color with
    | some c => { self with border_color := c }
    | Option.none => self

/-- The helper for one side of a border-top/right/bottom/left shorthand;
setSide installs the parsed width and style on the chosen side. -/
def ComputedStyle.apply_border_side (self : ComputedStyle) (value : Value)
    (parent_font_size vw vh : ℚ)
    (setW : ComputedStyle → ℚ → ComputedStyle)
    (setS : ComputedStyle → BorderStyle → ComputedStyle) : ComputedStyle :=
  match ComputedStyle.parse_border_shorthand value parent_font_size vw vh with
  | Option.none => self
  | some (width, style, color) =>
    let self := match width with | some w => setW self w | Option.none => self
    let self := match style with | some s => setS self s | Option.none => self
    match color with
    | some c => { self with border_color := c }
    | Option.none => self

/-- The shorthand value distributor used by the margin and padding arms of
apply_value: collect the pixel values of the list and assign by count. -/
def shorthandVals (values : List Value) (parent_font_size vw vh : ℚ) : List ℚ :=
  values.filterMap (fun v => v.to_px parent_font_size vw vh)

/-- ComputedStyle::apply_value: the full property dispatch of
css/computed.rs. -/
def ComputedStyle.apply_value (self : ComputedStyle) (property : String)
    (value : Value) (parent_font_size vw vh : ℚ) : ComputedStyle :=
  match property with
  | "display" =>
    match value.as_keyword with
    | some kw =>
      { self with display :=
        match kw with
        | "block" => .block
        | "inline" => .inline
        | "inline-block" => .inlineBlock
        | "none" => .none
        | "flex" => .flex
        | "grid" => .grid
        | "table" => .table
        | "table-row" => .tableRow
        | "table-cell" => .tableCell
        | "table-row-group" => .tableRowGroup
        | "table-header-group" => .tableHeaderGroup
        | "table-footer-group" => .tableFooterGroup
        | "table-caption" => .tableCaption
        | "table-column" => .tableColumn
        | "table-column-group" => .tableColumnGroup
        | _ => .block }
    | Option.none => self
  | "color" =>
    match value.to_color with
    | some c => { self with color := c }
    | Option.none => self
  | "background-color" =>
    match value.to_color with
    | some c => { self with background_color := c }
    | Option.none => self
  | "background" =>
    match value.to_color with
    | some c => { self with background_color := c }
    | Option.none => self
  | "font-size" =>
    match value.to_px parent_font_size vw vh with
    | some px => { self with font_size := px }
    | Option.none => self
  | "font-weight" =>
    match value.as_keyword with
    | some kw =>
      { self with font_weight :=
        match kw with
        | "bold" => .bold
        | "normal" => .normal
        | _ => .normal }
    | Option.none =>
      match value with
      | .number n => { self with font_weight := .numeric (ratToU16 n) }
      | _ => self
  | "text-align" =>
    match value.as_keyword with
    | some kw =>
      { self with text_align :=
        match kw with
        | "left" => .left
        | "center" => .center
        | "right" => .right
        | "justify" => .justify
        | _ => .left }
    | Option.none => self
  | "text-decoration" =>
    match value.as_keyword with
    | some kw =>
      { self with text_decoration :=
        match kw with
        | "none" => .none
        | "underline" => .underline
        | "line-through" => .lineThrough
        | "overline" => .overline
        | _ => .none }
    | Option.none => self
  | "line-height" =>
    match value with
    | .number n => { self with line_height := n }
    | _ =>
      match value.to_px parent_font_size vw vh with
      | some px => { self with line_height := px / self.font_size }
      | Option.none => self
  | "margin" =>
    match value with
    | .list values =>
      let vals := shorthandVals values parent_font_size vw vh
      match vals with
      | [a] =>
        { self with margin_top := a, margin_right := a, margin_bottom := a,
                    margin_left := a }
      | [a, b] =>
        { self with margin_top := a, margin_bottom := a, margin_right := b,
                    margin_left := b }
      | [a, b, c] =>
        { self with margin_top := a, margin_right := b, margin_left := b,
                    margin_bottom := c }
      | [a, b, c, d] =>
        { self with margin_top := a, margin_right := b, margin_bottom := c,
                    margin_left := d }
      | _ => self
    | _ =>
      match value.to_px parent_font_size vw vh with
      | some px =>
        { self with margin_top := px, margin_right := px, margin_bottom := px,
                    margin_left := px }
      | Option.none => self
  | "margin-top" =>
    match value.to_px parent_font_size vw vh with
    | some px => { self with margin_top := px }
    | Option.none => self
  | "margin-right" =>
    match value.to_px parent_font_size vw vh with
    | some px => { self with margin_right := px }
    | Option.none => self
  | "margin-bottom" =>
    match value.to_px parent_font_size vw vh with
    | some px => { self with margin_bottom := px }
    | Option.none => self
  | "margin-left" =>
    match value.to_px parent_font_size vw vh with
    | some px => { self with margin_left := px }
    | Option.none => self
  | "padding" =>
    match value with
    | .list values =>
      let vals := shorthandVals values parent_font_size vw vh
      match vals with
      | [a] =>
        { self with padding_top := a, padding_right := a, padding_bottom := a,
                    padding_left := a }
      | [a, b] =>
        { self with padding_top := a, padding_bottom := a, padding_right := b,
                    padding_left := b }
      | [a, b, c] =>
        { self with padding_top := a, padding_right := b, padding_left := b,
                    padding_bottom := c }
      | [a, b, c, d] =>
        { self with padding_top := a, padding_right := b, padding_bottom := c,
                    padding_left := d }
      | _ => self
    | _ =>
      match value.to_px parent_font_size vw vh with
      | some px =>
        { self with padding_top := px, padding_right := px, padding_bottom := px,
                    padding_left := px }
      | Option.none => self
  | "padding-top" =>
    match value.to_px parent_font_size vw vh with
    | some px => { self with padding_top := px }
    | Option.none => self
  | "padding-right" =>
    match value.to_px parent_font_size vw vh with
    | some px => { self with padding_right := px }
    | Option.none => self
  | "padding-bottom" =>
    match value.to_px parent_font_size vw vh with
    | some px => { self with padding_bottom := px }
    | Option.none => self
  | "padding-left" =>
    match value.to_px parent_font_size vw vh with
    | some px => { self with padding_left := px }
    | Option.none => self
  | "border-width" =>
    match value.to_px parent_font_size vw vh with
    | some px =>
      { self with border_top_width := px, border_right_width := px,
                  border_bottom_width := px, border_left_width := px }
    | Option.none => self
  | "border-color" =>
    match value.to_color with
    | some c => { self with border_color := c }
    | Option.none => self
  | "width" =>
    match value with
    | .auto => { self with width := Option.none }
    | _ =>
      match value.to_px parent_font_size vw vh with
      | some px => { self with width := some px }
      | Option.none => self
  | "height" =>
    match value with
    | .auto => { self with height := Option.none }
    | _ =>
      match value.to_px parent_font_size vw vh with
      | some px => { self with height := some px }
      | Option.none => self
  | "position" =>
    match value.as_keyword with
    | some kw =>
      { self with position :=
        match kw with
        | "static" => .static
        | "relative" => .relative
        | "absolute" => .absolute
        | "fixed" => .fixed
        | _ => .static }
    | Option.none => self
  | "top" =>
    match value.to_px parent_font_size vw vh with
    | some px => { self with top := some px }
    | Option.none => self
  | "right" =>
    match value.to_px parent_font_size vw vh with
    | some px => { self with right := some px }
    | Option.none => self
  | "bottom" =>
    match value.to_px parent_font_size vw vh with
    | some px => { self with bottom := some px }
    | Option.none => self
  | "left" =>
    match value.to_px parent_font_size vw vh with
    | some px => { self with left := some px }
    | Option.none => self
  | "flex-direction" =>
    match value.as_keyword with
    | some kw =>
      { self with flex_direction :=
        match kw with
        | "row" => .row
        | "row-reverse" => .rowReverse
        | "column" => .column
        | "column-reverse" => .columnReverse
        | _ => .row }
    | Option.none => self
  | "flex-wrap" =>
    match value.as_keyword with
    | some kw =>
      { self with flex_wrap :=
        match kw with
        | "nowrap" => .noWrap
        | "wrap" => .wrap
        | "wrap-reverse" => .wrapReverse
        | _ => .noWrap }
    | Option.none => self
  | "justify-content" =>
    match value.as_keyword with
    | some kw =>
      { self with justify_content :=
        match kw with
        | "flex-start" => .flexStart
        | "start" => .flexStart
        | "flex-end" => .flexEnd
        | "end" => .flexEnd
        | "center" => .center
        | "space-between" => .spaceBetween
        | "space-around" => .spaceAround
        | "space-evenly" => .spaceEvenly
        | _ => .flexStart }
    | Option.none => self
  | "align-items" =>
    match value.as_keyword with
    | some kw =>
      { self with align_items :=
        match kw with
        | "flex-start" => .flexStart
        | "start" => .flexStart
        | "flex-end" => .flexEnd
        | "end" => .flexEnd
        | "center" => .center
        | "stretch" => .stretch
        | "baseline" => .baseline
        | _ => .stretch }
    | Option.none => self
  | "align-content" =>
    match value.as_keyword with
    | some kw =>
      { self with align_content :=
        match kw with
        | "flex-start" => .flexStart
        | "start" => .flexStart
        | "flex-end" => .flexEnd
        | "end" => .flexEnd
        | "center" => .center
        | "space-between" => .spaceBetween
        | "space-around" => .spaceAround
        | "stretch" => .stretch
        | _ => .flexStart }
    | Option.none => self
  | "gap" =>
    match value.to_px parent_font_size vw vh with
    | some px => { self with gap := px, row_gap := px, column_gap := px }
    | Option.none => self
  | "row-gap" =>
    match value.to_px parent_font_size vw vh with
    | some px => { self with row_gap := px }
    | Option.none => self
  | "column-gap" =>
    match value.to_px parent_font_size vw vh with
    | some px => { self with column_gap := px }
    | Option.none => self
  | "flex-grow" =>
    match value with
    | .number n => { self with flex_grow := n }
    | _ => self
  | "flex-shrink" =>
    match value with
    | .number n => { self with flex_shrink := n }
    | _ => self
  | "flex-basis" =>
    match value with
    | .auto => { self with flex_basis := Option.none }
    | _ =>
      match value.to_px parent_font_size vw vh with
      | some px => { self with flex_basis := some px }
      | Option.none => self
  | "flex" =>
    match value with
    | .number n =>
      { self with flex_grow := n, flex_shrink := 1, flex_basis := some 0 }
    | _ =>
      match value.as_keyword with
      | some "auto" =>
        { self with flex_grow := 1, flex_shrink := 1, flex_basis := Option.none }
      | some "none" =>
        { self with flex_grow := 0, flex_shrink := 0, flex_basis := Option.none }
      | _ => self
  | "align-self" =>
    match value.as_keyword with
    | some kw =>
      match kw with
      | "flex-start" => { self with align_self := some .flexStart }
      | "start" => { self with align_self := some .flexStart }
      | "flex-end" => { self with align_self := some .flexEnd }
      | "end" => { self with align_self := some .flexEnd }
      | "center" => { self with align_self := some .center }
      | "stretch" => { self with align_self := some .stretch }
      | "baseline" => { self with align_self := some .baseline }
      | "auto" => self
      | _ => { self with align_self := some .stretch }
    | Option.none => self
  | "order" =>
    match value with
    | .number n => { self with order := ratToI32 n }
    | _ => self
  | "grid-template-columns" =>
    match value.as_keyword with
    | some kw =>
      if kw = "none" then { self with grid_template_columns := [] } else self
    | Option.none => self
  | "grid-template-rows" =>
    match value.as_keyword with
    | some kw =>
      if kw = "none" then { self with grid_template_rows := [] } else self
    | Option.none => self
  | "grid-gap" =>
    match value.to_px parent_font_size vw vh with
    | some px =>
      { self with grid_gap := px, grid_row_gap := px, grid_column_gap := px }
    | Option.none => self
  | "grid-row-gap" =>
    match value.to_px parent_font_size vw vh with
    | some px => { self with grid_row_gap := px }
    | Option.none => self
  | "grid-column-gap" =>
    match value.to_px parent_font_size vw vh with
    | some px => { self with grid_column_gap := px }
    | Option.none => self
  | "grid-column-start" =>
    match value with
    | .number n =>
      { self with grid_column := { self.grid_column with start := some (ratToI32 n) } }
    | _ => self
  | "grid-column-end" =>
    match value with
    | .number n =>
      { self with grid_column := { self.grid_column with ending := some (ratToI32 n) } }
    | _ => self
  | "grid-row-start" =>
    match value with
    | .number n =>
      { self with grid_row := { self.grid_row with start := some (ratToI32 n) } }
    | _ => self
  | "grid-row-end" =>
    match value with
    | .number n =>
      { self with grid_row := { self.grid_row with ending := some (ratToI32 n) } }
    | _ => self
  | "border-radius" =>
    match value.to_px parent_font_size vw vh with
    | some px =>
      { self with border_radius := px, border_top_left_radius := px,
                  border_top_right_radius := px, border_bottom_left_radius := px,
                  border_bottom_right_radius := px }
    | Option.none => self
  | "border-top-left-radius" =>
    match value.to_px parent_font_size vw vh with
    | some px => { self with border_top_left_radius := px }
    | Option.none => self
  | "border-top-right-radius" =>
    match value.to_px parent_font_size vw vh with
    | some px => { self with border_top_right_radius := px }
    | Option.none => self
  | "border-bottom-left-radius" =>
    match value.to_px parent_font_size vw vh with
    | some px => { self with border_bottom_left_radius := px }
    | Option.none => self
  | "border-bottom-right-radius" =>
    match value.to_px parent_font_size vw vh with
    | some px => { self with border_bottom_right_radius := px }
    | Option.none => self
  | "opacity" =>
    match value with
    | .number n => { self with opacity := rclamp n 0 1 }
    | _ => self
  | "overflow" =>
    match value.as_keyword with
    | some kw =>
      let o : Overflow :=
        match kw with
        | "visible" => .visible
        | "hidden" => .hidden
        | "scroll" => .scroll
        | "auto" => .auto
        | _ => .visible
      { self with overflow := o, overflow_x := o, overflow_y := o }
    | Option.none => self
  | "overflow-x" =>
    match value.as_keyword with
    | some kw =>
      { self with overflow_x :=
        match kw with
        | "visible" => .visible
        | "hidden" => .hidden
        | "scroll" => .scroll
        | "auto" => .auto
        | _ => .visible }
    | Option.none => self
  | "overflow-y" =>
    match value.as_keyword with
    | some kw =>
      { self with overflow_y :=
        match kw with
        | "visible" => .visible
        | "hidden" => .hidden
        | "scroll" => .scroll
        | "auto" => .auto
        | _ => .visible }
    | Option.none => self
  | "box-sizing" =>
    match value.as_keyword with
    | some kw =>
      { self with box_sizing :=
        match kw with
        | "content-box" => .contentBox
        | "border-box" => .borderBox
        | _ => .contentBox }
    | Option.none => self
  | "white-space" =>
    match value.as_keyword with
    | some kw =>
      { self with white_space :=
        match kw with
        | "normal" => .normal
        | "nowrap" => .noWrap
        | "pre" => .pre
        | "pre-wrap" => .preWrap
        | "pre-line" => .preLine
        | _ => .normal }
    | Option.none => self
  | "vertical-align" =>
    match value.as_keyword with
    | some kw =>
      { self with vertical_align :=
        match kw with
        | "baseline" => .baseline
        | "top" => .top
        | "middle" => .middle
        | "bottom" => .bottom
        | "text-top" => .textTop
        | "text-bottom" => .textBottom
        | "sub" => .sub
        | "super" => .sup
        | _ => .baseline }
    | Option.none => self
  | "visibility" =>
    match value.as_keyword with
    | some kw =>
      { self with visibility :=
        match kw with
        | "visible" => .visible
        | "hidden" => .hidden
        | "collapse" => .collapse
        | _ => .visible }
    | Option.none => self
  | "z-index" =>
    match value with
    | .number n => { self with z_index := some (ratToI32 n) }
    | _ =>
      match value.as_keyword with
      | some "auto" => { self with z_index := Option.none }
      | _ => self
  | "min-width" =>
    match value.to_px parent_font_size vw vh with
    | some px => { self with min_width := some px }
    | Option.none => self
  | "max-width" =>
    match value with
    | .none => { self with max_width := Option.none }
    | _ =>
      match value.to_px parent_font_size vw vh with
      | some px => { self with max_width := some px }
      | Option.none => self
  | "min-height" =>
    match value.to_px parent_font_size vw vh with
    | some px => { self with min_height := some px }
    | Option.none => self
  | "max-height" =>
    match value with
    | .none => { self with max_height := Option.none }
    | _ =>
      match value.to_px parent_font_size vw vh with
      | some px => { self with max_height := some px }
      | Option.none => self
  | "border" => self.apply_border_shorthand value parent_font_size vw vh
  | "border-top" =>
    self.apply_border_side value parent_font_size vw vh
      (fun s w => { s with border_top_width := w })
      (fun s st => { s with border_top_style := st })
  | "border-right" =>
    self.apply_border_side value parent_font_size vw vh
      (fun s w => { s with border_right_width := w })
      (fun s st => { s with border_right_style := st })
  | "border-bottom" =>
    self.apply_border_side value parent_font_size vw vh
      (fun s w => { s with border_bottom_width := w })
      (fun s st => { s with border_bottom_style := st })
  | "border-left" =>
    self.apply_border_side value parent_font_size vw vh
      (fun s w => { s with border_left_width := w })
      (fun s st => { s with border_left_style := st })
  | "border-style" =>
    match value.as_keyword with
    | some kw =>
      let st := ComputedStyle.parse_border_style kw
      { self with border_style := st, border_top_style := st,
                  border_right_style := st, border_bottom_style := st,
                  border_left_style := st }
    | Option.none => self
  | "border-collapse" =>
    match value.as_keyword with
    | some kw => { self with border_collapse := kw = "collapse" }
    | Option.none => self
  | "border-spacing" =>
    match value.to_px parent_font_size vw vh with
    | some px => { self with border_spacing := px }
    | Option.none => self
  | _ => self

/-- ComputedStyle::for_tag: the UA-stylesheet-equivalent per-tag defaults. -/
def ComputedStyle.for_tag (tag : String) : ComputedStyle :=
  let style := ComputedStyle.default
  match tag with
  | "h1" =>
    { style with font_size := 32, font_weight := .bold,
                 margin_top := 21.44, margin_bottom := 21.44 }
  | "h2" =>
    { style with font_size := 24, font_weight := .bold,
                 margin_top := 19.92, margin_bottom := 19.92 }
  | "h3" =>
    { style with font_size := 18.72, font_weight := .bold,
                 margin_top := 18.72, margin_bottom := 18.72 }
  | "h4" =>
    { style with font_size := 16, font_weight := .bold,
                 margin_top := 21.28, margin_bottom := 21.28 }
  | "h5" =>
    { style with font_size := 13.28, font_weight := .bold,
                 margin_top := 22.17, margin_bottom := 22.17 }
  | "h6" =>
    { style with font_size := 10.72, font_weight := .bold,
                 margin_top := 24.97, margin_bottom := 24.97 }
  | "p" => { style with margin_top := 16, margin_bottom := 16 }
  | "a" =>
    { style with display := .inline, color := Color.rgb 0 0 238,
                 text_decoration := .underline }
  | "strong" => { style with display := .inline, font_weight := .bold }
  | "b" => { style with display := .inline, font_weight := .bold }
  | "em" => { style with display := .inline }
  | "i" => { style with display := .inline }
  | "span" => { style with display := .inline }
  | "div" => { style with display := .block }
  | "ul" =>
    { style with margin_top := 16, margin_bottom := 16, padding_left := 40 }
  | "ol" =>
    { style with margin_top := 16, margin_bottom := 16, padding_left := 40 }
  | "li" => { style with display := .block }
  | "img" => { style with display := .inlineBlock }
  | "br" => { style with display := .block }
  | "table" =>
    { style with display := .table, border_collapse := false,
                 border_spacing := 2 }
  | "tr" => { style with display := .tableRow }
  | "td" =>
    { style with display := .tableCell, padding_top := 1, padding_right := 1,
                 padding_bottom := 1, padding_left := 1 }
  | "th" =>
    { style with display := .tableCell, font_weight := .bold,
                 text_align := .center, padding_top := 1, padding_right := 1,
                 padding_bottom := 1, padding_left := 1 }
  | "thead" => { style with display := .tableHeaderGroup }
  | "tbody" => { style with display := .tableRowGroup }
  | "tfoot" => { style with display := .tableFooterGroup }
  | "caption" => { style with display := .tableCaption, text_align := .center }
  | "col" => { style with display := .tableColumn }
  | "colgroup" => { style with display := .tableColumnGroup }
  | "input" => { style with display := .inlineBlock }
  | "button" => { style with display := .inlineBlock }
  | "select" => { style with display := .inlineBlock }
  | "textarea" => { style with display := .inlineBlock }
  | _ => style

/-! ## css/cascade.rs: the style computer -/

/-- The sort key order used by matching_rules.sort_by_key: lexicographic
on (Specificity, source_order). -/
def matchKeyLe (a b : Specificity × Nat) : Bool :=
  Specificity.lt a.1 b.1 ∨ (a.1 = b.1 ∧ a.2 ≤ b.2)

/-- Stable insertion of an element into a list sorted by matchKeyLe: the
element goes after every entry whose key is less than or equal, which is
the stable-sort placement of Rust slice::sort_by_key. -/
def insertByKey (x : Specificity × Nat × IndexedRule)
    (l : List (Specificity × Nat × IndexedRule)) :
    List (Specificity × Nat × IndexedRule) :=
  match l with
  | [] => [x]
  | y :: ys =>
    if matchKeyLe (y.1, y.2.1) (x.1, x.2.1) then y :: insertByKey x ys
    else x :: y :: ys

/-- Stable sort by (specificity, source_order), modelling
matching_rules.sort_by_key (a stable sort; the source_order components of
the entries produced by the index are distinct, so any stable placement
yields the same list). -/
def sortMatchingRules (l : List (Specificity × Nat × IndexedRule)) :
    List (Specificity × Nat × IndexedRule) :=
  l.foldl (fun acc x => insertByKey x acc) []

/-- Apply one declaration list pass: the body of the two for-loops over
matching rules, filtered on the importance flag. -/
def applyDeclPass (style : ComputedStyle)
    (rules : List (Specificity × Nat × IndexedRule)) (important : Bool)
    (parent_font_size vw vh : ℚ) : ComputedStyle :=
  rules.foldl
    (fun st entry =>
      entry.2.2.rule.declarations.foldl
        (fun st decl =>
          if decl.important = important then
            st.apply_value decl.property decl.value parent_font_size vw vh
          else st)
        st)
    style

/-- StyleComputer::apply_presentational_attributes from css/cascade.rs.
The width and height attribute arms of the source refer to a
LengthOrPercentage type that does not exist in the snapshot of
css/computed.rs (whose width and height fields are plain Option pixel
values); they are modelled here as storing the parsed pixel value, and as
not storing a bare percentage width. -/
def applyPresentationalAttributes (style : ComputedStyle) (element : ElementData)
    (_parent_font_size : ℚ) : ComputedStyle :=
  let style :=
    match element.get_attribute "bgcolor" with
    | some bgcolor =>
      match Color.from_hex bgcolor with
      | some c => { style with background_color := c }
      | Option.none =>
        match (Value.keyword bgcolor).to_color with
        | some c => { style with background_color := c }
        | Option.none => style
    | Option.none => style
  let style :=
    match element.get_attribute "width" with
    | some w =>
      match parseF32 (trimEndMatches w "px") with
      | some px => { style with width := some px }
      | Option.none => style
    | Option.none => style
  let style :=
    match element.get_attribute "height" with
    | some hgt =>
      match parseF32 (trimEndMatches hgt "px") with
      | some px => { style with height := some px }
      | Option.none => style
    | Option.none => style
  let style :=
    match element.get_attribute "border" with
    | some border =>
      match parseF32 border with
      | some px =>
        let style :=
          { style with border_top_width := px, border_right_width := px,
                       border_bottom_width := px, border_left_width := px }
        if style.border_color = Color.TRANSPARENT then
          { style with border_color := Color.BLACK }
        else style
      | Option.none => style
    | Option.none => style
  let style :=
    match element.get_attribute "cellpadding" with
    | some cellpadding =>
      match parseF32 cellpadding with
      | some px =>
        { style with padding_top := px, padding_right := px,
                     padding_bottom := px, padding_left := px }
      | Option.none => style
    | Option.none => style
  let style :=
    match element.get_attribute "cellspacing" with
    | some cellspacing =>
      match parseF32 cellspacing with
      | some px => { style with border_spacing := px }
      | Option.none => style
    | Option.none => style
  let style :=
    match element.get_attribute "valign" with
    | some valign =>
      { style with vertical_align :=
        match lowerStr valign with
        | "top" => .top
        | "middle" => .middle
        | "bottom" => .bottom
        | "baseline" => .baseline
        | _ => style.vertical_align }
    | Option.none => style
  let style :=
    match element.get_attribute "align" with
    | some align =>
      { style with text_align :=
        match lowerStr align with
        | "left" => .left
        | "center" => .center
        | "right" => .right
        | "justify" => .justify
        | _ => style.text_align }
    | Option.none => style
  match element.get_attribute "color" with
  | some color_attr =>
    match Color.from_hex color_attr with
    | some c => { style with color := c }
    | Option.none =>
      match (Value.keyword color_attr).to_color with
      | some c => { style with color := c }
      | Option.none => style
  | Option.none => style

/-- The inline-style parser is the external CSS-text parser (parse_css is
built on the third-party cssparser tokenizer); it is passed in as an
oracle, exactly as the spec lists the CSS parser among the external
collaborators. -/
abbrev InlineCssParse := String → Stylesheet

/-- StyleComputer from css/cascade.rs. -/
structure StyleComputer where
  stylesheets : List Stylesheet
  selector_index : Option SelectorIndex
  computed_styles : List (NodeId × ComputedStyle)
  viewport_width : ℚ
  viewport_height : ℚ

def StyleComputer.new (viewport_width viewport_height : ℚ) : StyleComputer :=
  ⟨[], Option.none, [], viewport_width, viewport_height⟩

/-- StyleComputer::add_stylesheet: push and invalidate the index. -/
def StyleComputer.add_stylesheet (self : StyleComputer) (sheet : Stylesheet) :
    StyleComputer :=
  { self with stylesheets := self.stylesheets ++ [sheet],
              selector_index := Option.none }

/-- StyleComputer::clear_stylesheets. -/
def StyleComputer.clear_stylesheets (self : StyleComputer) : StyleComputer :=
  { self with stylesheets := [], selector_index := Option.none }

/-- StyleComputer::ensure_index: lazily rebuild the selector index. -/
def StyleComputer.ensure_index (self : StyleComputer) : StyleComputer :=
  match self.selector_index with
  | some _ => self
  | Option.none =>
    { self with selector_index := some (SelectorIndex.build self.stylesheets) }

/-- The element branch of StyleComputer::compute_node_styles: seed from
for_tag, inherit color, font_size and line_height, gather and verify
candidate rules, sort by (specificity, source_order), apply presentational
attributes, apply all non-important declarations in sorted order, then all
important declarations in sorted order, then the parsed inline style
attribute. -/
def computeElementStyle (inlineParse : InlineCssParse) (doc : Document)
    (index : Option SelectorIndex) (vw vh : ℚ) (node_id : NodeId)
    (element : ElementData) (parent_style : Option ComputedStyle) : ComputedStyle :=
  let style := ComputedStyle.for_tag element.tag_name
  let style :=
    match parent_style with
    | some parent =>
      { style with color := parent.color, font_size := parent.font_size,
                   line_height := parent.line_height }
    | Option.none => style
  let matching_rules :=
    match index with
    | some idx =>
      ((idx.get_candidate_rules element.attr_id element.classes
          element.tag_name).filter
        (fun ir => ir.selector.matches doc node_id)).map
        (fun ir => (ir.specificity, ir.source_order, ir))
    | Option.none => []
  let matching_rules := sortMatchingRules matching_rules
  let parent_font_size := (parent_style.map (fun p => p.font_size)).getD 16
  let style := applyPresentationalAttributes style element parent_font_size
  let style := applyDeclPass style matching_rules false parent_font_size vw vh
  let style := applyDeclPass style matching_rules true parent_font_size vw vh
  match element.get_attribute "style" with
  | some style_attr =>
    let inline_styles := inlineParse ("* \x7b " ++ style_attr ++ " \x7d")
    inline_styles.rules.foldl
      (fun st rule =>
        rule.declarations.foldl
          (fun st decl =>
            st.apply_value decl.property decl.value parent_font_size vw vh)
          st)
      style
  | Option.none => style

/-- StyleComputer::compute_node_styles: recurse over the DOM, threading
the computed-style map; a missing node is a silent no-op. -/
def computeNodeStyles (inlineParse : InlineCssParse) (doc : Document)
    (index : Option SelectorIndex) (vw vh : ℚ) :
    Nat → NodeId → Option ComputedStyle → List (NodeId × ComputedStyle) →
    List (NodeId × ComputedStyle)
  | 0, _, _, m => m
  | fuel + 1, node_id, parent_style, m =>
    match doc.get_node node_id with
    | Option.none => m
    | some node =>
      let style :=
        match node.as_element with
        | some element =>
          computeElementStyle inlineParse doc index vw vh node_id element
            parent_style
        | Option.none => parent_style.getD ComputedStyle.default
      let m := (node_id, style) :: m
      (doc.childrenOf node_id).foldl
        (fun m child =>
          computeNodeStyles inlineParse doc index vw vh fuel child (some style) m)
        m

/-- StyleComputer::compute_styles with an explicit recursion fuel: clear
the map, ensure the index, recurse from the document root. -/
def StyleComputer.compute_stylesFuel (self : StyleComputer)
    (inlineParse : InlineCssParse) (doc : Document) (fuel : Nat) : StyleComputer :=
  let self := { self with computed_styles := [] }
  let self := self.ensure_index
  { self with computed_styles :=
      (computeNodeStyles inlineParse doc self.selector_index self.viewport_width
        self.viewport_height fuel doc.root Option.none []) }

/-- StyleComputer::compute_styles with the canonical sufficient fuel for
an acyclic document. -/
def StyleComputer.compute_styles (self : StyleComputer)
    (inlineParse : InlineCssParse) (doc : Document) : StyleComputer :=
  self.compute_stylesFuel inlineParse doc (doc.nodes.length + 1)

/-- StyleComputer::get_style. -/
def StyleComputer.get_style (self : StyleComputer) (node_id : NodeId) :
    Option ComputedStyle :=
  self.computed_styles.lookup node_id

/-! ## layout/tree.rs: scroll animator and scrollbar state -/

/-- ScrollAnimator from layout/tree.rs. -/
structure ScrollAnimator where
  current : ℚ
  target : ℚ
  animating : Bool
deriving DecidableEq, Repr

def ScrollAnimator.new : ScrollAnimator := ⟨0, 0, false⟩

/-- ScrollAnimator::update. The Rust body advances current by
diff * (1 - exp(-12 * dt)); the transcendental factor (1 - exp(-12 * dt))
is passed in as lerpFactor, so every theorem below holds for all values of
it. Returns the new state and the bool the Rust method returns. -/
def ScrollAnimator.update (self : ScrollAnimator) (lerpFactor max_scroll : ℚ) :
    ScrollAnimator × Bool :=
  if ¬ self.animating then (self, false)
  else
    let target := rclamp self.target 0 max_scroll
    let diff := target - self.current
    if |diff| < 1/2 then
      (⟨target, target, false⟩, false)
    else
      let current := self.current + diff * lerpFactor
      let current := rclamp current 0 max_scroll
      (⟨current, target, true⟩, true)

/-- ScrollAnimator::scroll_by. -/
def ScrollAnimator.scroll_by (self : ScrollAnimator) (delta max_scroll : ℚ) :
    ScrollAnimator :=
  { self with target := rclamp (self.target + delta) 0 max_scroll,
              animating := true }

/-- ScrollAnimator::scroll_to. -/
def ScrollAnimator.scroll_to (self : ScrollAnimator) (position max_scroll : ℚ) :
    ScrollAnimator :=
  { self with target := rclamp position 0 max_scroll, animating := true }

/-- ScrollAnimator::scroll_immediate. -/
def ScrollAnimator.scroll_immediate (self : ScrollAnimator)
    (position max_scroll : ℚ) : ScrollAnimator :=
  let current := rclamp position 0 max_scroll
  ⟨current, current, false⟩

structure ScrollbarConfig where
  width : ℚ
  min_thumb_height : ℚ
  track_color : Color
  thumb_color : Color
  thumb_hover_color : Color
  thumb_active_color : Color
deriving DecidableEq, Repr

def ScrollbarConfig.default : ScrollbarConfig :=
  ⟨12, 30, Color.rgba 200 200 200 128, Color.rgba 120 120 120 180,
   Color.rgba 100 100 100 200, Color.rgba 80 80 80 220⟩

inductive ScrollbarState where
  | idle
  | hovering
  | dragging (start_y start_scroll : ℚ)
deriving DecidableEq, Repr

inductive ScrollbarHitArea where
  | none
  | track
  | thumb
deriving DecidableEq, Repr

/-! ## layout/tree.rs: the layout-box tree -/

inductive BoxType where
  | block
  | inline
  | inlineBlock
  | anonymous
  | text
  | flex
  | grid
  | image
  | table
  | tableRow
  | tableCell
  | tableRowGroup
deriving DecidableEq, Repr

structure ImageSize where
  width : Nat
  height : Nat
deriving DecidableEq, Repr

def ImageSize.new (width height : Nat) : ImageSize := ⟨width, height⟩

/-- LayoutBox from layout/tree.rs (an inductive because it owns its
children). -/
inductive LayoutBox where
  | mk
    (box_type : BoxType)
    (dimensions : BoxDimensions)
    (node_id : Option NodeId)
    (children : List LayoutBox)
    (text_content : Option String)
    (style : ComputedStyle)
    (image_src : Option String)
    (intrinsic_size : Option ImageSize)
    (texture_id : Option Nat)

def LayoutBox.box_type : LayoutBox → BoxType
  | .mk bt _ _ _ _ _ _ _ _ => bt

def LayoutBox.dimensions : LayoutBox → BoxDimensions
  | .mk _ d _ _ _ _ _ _ _ => d

def LayoutBox.node_id : LayoutBox → Option NodeId
  | .mk _ _ n _ _ _ _ _ _ => n

def LayoutBox.children : LayoutBox → List LayoutBox
  | .mk _ _ _ c _ _ _ _ _ => c

def LayoutBox.text_content : LayoutBox → Option String
  | .mk _ _ _ _ t _ _ _ _ => t

def LayoutBox.style : LayoutBox → ComputedStyle
  | .mk _ _ _ _ _ s _ _ _ => s

def LayoutBox.image_src : LayoutBox → Option String
  | .mk _ _ _ _ _ _ i _ _ => i

def LayoutBox.intrinsic_size : LayoutBox → Option ImageSize
  | .mk _ _ _ _ _ _ _ s _ => s

def LayoutBox.texture_id : LayoutBox → Option Nat
  | .mk _ _ _ _ _ _ _ _ t => t

/-- Replace the dimensions of a box (the mutation target of the layout
pass). -/
def LayoutBox.setDims : LayoutBox → BoxDimensions → LayoutBox
  | .mk bt _ n c t s i sz tx, d => .mk bt d n c t s i sz tx

def LayoutBox.mapDims (b : LayoutBox) (f : BoxDimensions → BoxDimensions) :
    LayoutBox :=
  b.setDims (f b.dimensions)

def LayoutBox.setChildren : LayoutBox → List LayoutBox → LayoutBox
  | .mk bt d n _ t s i sz tx, c => .mk bt d n c t s i sz tx

def LayoutBox.setIntrinsicSize : LayoutBox → Option ImageSize → LayoutBox
  | .mk bt d n c t s i _ tx, sz => .mk bt d n c t s i sz tx

/-- LayoutBox::new. -/
def LayoutBox.new (box_type : BoxType) (node_id : Option NodeId) : LayoutBox :=
  .mk box_type BoxDimensions.new node_id [] Option.none ComputedStyle.default
    Option.none Option.none Option.none

/-- LayoutBox::new_text. -/
def LayoutBox.new_text (text : String) (style : ComputedStyle) : LayoutBox :=
  .mk .text BoxDimensions.new Option.none [] (some text) style Option.none
    Option.none Option.none

/-- LayoutBox::new_image. -/
def LayoutBox.new_image (src : String) (style : ComputedStyle)
    (node_id : Option NodeId) : LayoutBox :=
  .mk .image BoxDimensions.new node_id [] Option.none style (some src)
    Option.none Option.none

def LayoutBox.setStyle : LayoutBox → ComputedStyle → LayoutBox
  | .mk bt d n c t _ i sz tx, s => .mk bt d n c t s i sz tx

/-- The external text-measurement oracle (render/text.rs TextRenderer),
passed into the layout pass exactly as the Rust code passes a renderer
handle: measure_text for intrinsic sizing and measure_text_fast for
wrap-aware measurement. -/
structure TextMeasurer where
  measure_text : String → ℚ → ℚ × ℚ
  measure_text_fast : String → ℚ → ℚ → ℚ × ℚ

/-- Write the style-derived margin, padding and border edges into the
dimensions of a box (the common prologue of every layout function). -/
def LayoutBox.setupEdges (b : LayoutBox) : LayoutBox :=
  let style := b.style
  b.mapDims (fun d =>
    { d with
      margin := EdgeSizes.new style.margin_top style.margin_right
        style.margin_bottom style.margin_left,
      padding := EdgeSizes.new style.padding_top style.padding_right
        style.padding_bottom style.padding_left,
      border := EdgeSizes.new style.border_top_width style.border_right_width
        style.border_bottom_width style.border_left_width })

/-! ## layout/flex.rs -/

/-- FlexItem from layout/flex.rs. The Rust struct holds a mutable
reference to the child box; here the box travels by value together with
its position (idx) in the children vector, which stands for the
reference identity. -/
structure FlexItem where
  idx : Nat
  layout_box : LayoutBox
  outer_flex_basis : ℚ
  flex_grow : ℚ
  flex_shrink : ℚ
  hypothetical_main_size : ℚ
  main_offset : ℚ
  cross_offset : ℚ
  main_size : ℚ
  cross_size : ℚ

structure FlexLine where
  items : List FlexItem
  main_size : ℚ
  cross_size : ℚ

/-- build_flex_line: the cross size is the max margin-box cross size of
the items. -/
def build_flex_line (items : List FlexItem) (main_size : ℚ) (is_row : Bool) :
    FlexLine :=
  let cross_size :=
    (items.map (fun item =>
      if is_row then item.layout_box.dimensions.margin_box.height
      else item.layout_box.dimensions.margin_box.width)).foldl rmax 0
  ⟨items, main_size, cross_size⟩

/-- The outer main size the line-building loop computes for one item:
flex basis (explicit or margin-box main size) plus the margin, padding
and border totals on the main axis. -/
def flexOuterMain (box : LayoutBox) (is_row : Bool) : ℚ :=
  let flex_basis :=
    (box.style.flex_basis).getD
      (if is_row then box.dimensions.margin_box.width
       else box.dimensions.margin_box.height)
  if is_row then
    flex_basis + box.dimensions.margin.horizontal +
      box.dimensions.padding.horizontal + box.dimensions.border.horizontal
  else
    flex_basis + box.dimensions.margin.vertical +
      box.dimensions.padding.vertical + box.dimensions.border.vertical

/-- The FlexItem record the line-packing loop pushes for one child box. -/
def mkFlexItem (i : Nat) (box : LayoutBox) (is_row : Bool) : FlexItem :=
  let flex_basis :=
    (box.style.flex_basis).getD
      (if is_row then box.dimensions.margin_box.width
       else box.dimensions.margin_box.height)
  { idx := i, layout_box := box, outer_flex_basis := flexOuterMain box is_row,
    flex_grow := box.style.flex_grow, flex_shrink := box.style.flex_shrink,
    hypothetical_main_size := flex_basis, main_offset := 0,
    cross_offset := 0, main_size := flex_basis, cross_size := 0 }

/-- One iteration of the greedy line-packing loop of layout_flex: a new
line starts when wrap is enabled, the current line is nonempty, and the
current size plus gap plus the next outer size would exceed the available
main size; then the item is appended to the current line. -/
def buildFlexLinesStep (flex_wrap : FlexWrap) (available_main main_gap : ℚ)
    (is_row : Bool) (st : List FlexLine × List FlexItem × ℚ)
    (it : Nat × LayoutBox) : List FlexLine × List FlexItem × ℚ :=
    let (lines, current_line_items, current_line_main_size) := st
    let (i, box) := it
    let outer_main := flexOuterMain box is_row
    let gap_for_this_item : ℚ :=
      if current_line_items.isEmpty then 0 else main_gap
    let would_overflow :=
      flex_wrap ≠ FlexWrap.noWrap ∧ ¬ current_line_items.isEmpty ∧
        current_line_main_size + gap_for_this_item + outer_main > available_main
    let (lines, current_line_items, current_line_main_size) :=
      if would_overflow then
        (lines ++ [build_flex_line current_line_items current_line_main_size is_row],
         ([] : List FlexItem), (0 : ℚ))
      else (lines, current_line_items, current_line_main_size)
    let current_line_main_size :=
      if ¬ current_line_items.isEmpty then current_line_main_size + main_gap
      else current_line_main_size
    (lines, current_line_items ++ [mkFlexItem i box is_row],
     current_line_main_size + outer_main)

/-- The greedy line-packing loop of layout_flex (source lines 116-182). -/
def buildFlexLines (items : List (Nat × LayoutBox)) (flex_wrap : FlexWrap)
    (available_main main_gap : ℚ) (is_row : Bool) : List FlexLine :=
  let (lines, current_line_items, current_line_main_size) :=
    items.foldl (buildFlexLinesStep flex_wrap available_main main_gap is_row)
      ([], [], 0)
  if ¬ current_line_items.isEmpty then
    lines ++ [build_flex_line current_line_items current_line_main_size is_row]
  else lines

/-- resolve_flexible_lengths: distribute positive free space by flex-grow,
negative free space by flex-shrink weighted by hypothetical main size
(floored at 0), write the resolved main sizes into the boxes, and
recompute the line main size from the updated margin boxes plus gaps. -/
def resolve_flexible_lengths (line : FlexLine) (available_main main_gap : ℚ)
    (is_row : Bool) : FlexLine :=
  if line.items.isEmpty then line
  else
    let total_gaps := main_gap * ((line.items.length - 1 : Nat) : ℚ)
    let free_space := available_main - line.main_size
    let items :=
      if free_space > 0 then
        let total_grow := (line.items.map (fun i => i.flex_grow)).sum
        if total_grow > 0 then
          let grow_per_unit := free_space / total_grow
          line.items.map (fun item =>
            { item with main_size :=
                item.hypothetical_main_size + item.flex_grow * grow_per_unit })
        else line.items
      else if free_space < 0 then
        let total_shrink :=
          (line.items.map (fun i => i.flex_shrink * i.hypothetical_main_size)).sum
        if total_shrink > 0 then
          let shrinkFactor := (-free_space) / total_shrink
          line.items.map (fun item =>
            { item with main_size :=
                (rmax (item.hypothetical_main_size -
                  item.flex_shrink * item.hypothetical_main_size * shrinkFactor) 0) })
        else line.items
      else line.items
    let items :=
      items.map (fun item =>
        { item with layout_box :=
            item.layout_box.mapDims (fun d =>
              if is_row then { d with content := { d.content with width := item.main_size } }
              else { d with content := { d.content with height := item.main_size } }) })
    let main_size :=
      (items.map (fun i =>
        if is_row then i.layout_box.dimensions.margin_box.width
        else i.layout_box.dimensions.margin_box.height)).sum + total_gaps
    ⟨items, main_size, line.cross_size⟩

/-- position_main_axis: initial offset and between-item spacing per
justify-content, then walk the items (reversed for row-reverse and
column-reverse) advancing the offset. The advance uses the larger of the
margin-box width and height of the item. -/
def position_main_axis (line : FlexLine) (available_main : ℚ)
    (justify_content : JustifyContent) (main_gap : ℚ) (is_reversed : Bool) :
    FlexLine :=
  if line.items.isEmpty then line
  else
    let free_space := rmax (available_main - line.main_size) 0
    let item_count := line.items.length
    let (initial_offset, between_space) : ℚ × ℚ :=
      match justify_content with
      | .flexStart => (0, main_gap)
      | .flexEnd => (free_space, main_gap)
      | .center => (free_space / 2, main_gap)
      | .spaceBetween =>
        if item_count > 1 then
          (0, free_space / ((item_count - 1 : Nat) : ℚ) + main_gap)
        else (0, main_gap)
      | .spaceAround =>
        let space := free_space / (item_count : ℚ)
        (space / 2, space + main_gap)
      | .spaceEvenly =>
        let space := free_space / ((item_count + 1 : Nat) : ℚ)
        (space, space + main_gap)
    let seq := if is_reversed then line.items.reverse else line.items
    let step := fun (st : List FlexItem × ℚ × Nat) (item : FlexItem) =>
      let (done, offset, i) := st
      let item := { item with main_offset := offset }
      let item_main :=
        rmax item.layout_box.dimensions.margin_box.width
          item.layout_box.dimensions.margin_box.height
      let offset := offset + item_main
      let offset := if i < item_count - 1 then offset + between_space else offset
      (done ++ [item], offset, i + 1)
    let (seq, _, _) := seq.foldl step ([], initial_offset, 0)
    let items := if is_reversed then seq.reverse else seq
    ⟨items, line.main_size, line.cross_size⟩

/-- calculate_line_cross_size. -/
def calculate_line_cross_size (line : FlexLine) (is_row : Bool) : FlexLine :=
  let cross_size :=
    (line.items.map (fun item =>
      if is_row then item.layout_box.dimensions.margin_box.height
      else item.layout_box.dimensions.margin_box.width)).foldl rmax 0
  ⟨line.items, line.main_size, cross_size⟩

/-- position_cross_axis_in_line: per-item align-self (defaulting to the
container align-items); stretch mutates the cross dimension in place;
baseline is simplified to flex-start. -/
def position_cross_axis_in_line (line : FlexLine) (align_items : AlignItems)
    (is_row : Bool) : FlexLine :=
  let items := line.items.map (fun item =>
    let item_cross :=
      if is_row then item.layout_box.dimensions.margin_box.height
      else item.layout_box.dimensions.margin_box.width
    let align := (item.layout_box.style.align_self).getD align_items
    let (item, cross_offset) :=
      match align with
      | .flexStart => (item, (0 : ℚ))
      | .flexEnd => (item, line.cross_size - item_cross)
      | .center => (item, (line.cross_size - item_cross) / 2)
      | .stretch =>
        let item :=
          { item with layout_box :=
              item.layout_box.mapDims (fun d =>
                if is_row then
                  { d with content := { d.content with height :=
                      line.cross_size - d.margin.vertical - d.padding.vertical -
                        d.border.vertical } }
                else
                  { d with content := { d.content with width :=
                      line.cross_size - d.margin.horizontal - d.padding.horizontal -
                        d.border.horizontal } }) }
        (item, (0 : ℚ))
      | .baseline => (item, (0 : ℚ))
    { item with cross_offset := cross_offset, cross_size := line.cross_size })
  ⟨items, line.main_size, line.cross_size⟩

/-- position_lines: stack the lines on the cross axis (in reverse for
wrap-reverse), adding cross_gap between lines; returns the lines and the
total cross size. -/
def position_lines (lines : List FlexLine) (cross_gap : ℚ) (wrap_reverse : Bool) :
    List FlexLine × ℚ :=
  let line_count := lines.length
  let seq := if wrap_reverse then lines.reverse else lines
  let step := fun (st : List FlexLine × ℚ × Nat) (line : FlexLine) =>
    let (done, cross_offset, i) := st
    let line :=
      { line with items :=
          line.items.map (fun item =>
            { item with cross_offset := item.cross_offset + cross_offset }) }
    let cross_offset := cross_offset + line.cross_size
    let cross_offset :=
      if i < line_count - 1 then cross_offset + cross_gap else cross_offset
    (done ++ [line], cross_offset, i + 1)
  let (seq, cross_offset, _) := seq.foldl step ([], 0, 0)
  (if wrap_reverse then seq.reverse else seq, cross_offset)

/-- apply_positions: write the final content origin of every item box. -/
def apply_positions (lines : List FlexLine) (is_row : Bool)
    (padding border : EdgeSizes) : List FlexLine :=
  lines.map (fun line =>
    { line with items :=
        line.items.map (fun item =>
          let margin := item.layout_box.dimensions.margin
          let item :=
            { item with layout_box :=
                item.layout_box.mapDims (fun d =>
                  if is_row then
                    { d with content :=
                        { d.content with
                          x := item.main_offset + margin.left + padding.left +
                            border.left,
                          y := item.cross_offset + margin.top + padding.top +
                            border.top } }
                  else
                    { d with content :=
                        { d.content with
                          x := item.cross_offset + margin.left + padding.left +
                            border.left,
                          y := item.main_offset + margin.top + padding.top +
                            border.top } }) }
          item) })

/-- Stable insertion by the CSS order property: a later item goes after
every already-placed item whose order key is less than or equal, which is
the stable placement of items.sort_by_key(order). -/
def insertByOrder (x : Nat × LayoutBox) (l : List (Nat × LayoutBox)) :
    List (Nat × LayoutBox) :=
  match l with
  | [] => [x]
  | y :: ys =>
    if y.2.style.order ≤ x.2.style.order then y :: insertByOrder x ys
    else x :: y :: ys

/-- layout_child_intrinsic from layout/flex.rs: set up the edges, measure
text through the oracle, set explicit or fill widths, and stack
grandchildren for the intrinsic height. -/
def flexLayoutChildIntrinsic (tr : TextMeasurer) :
    Nat → LayoutBox → ℚ → LayoutBox
  | 0, child, _ => child
  | fuel + 1, child, containing_width =>
    let child := child.setupEdges
    let style := child.style
    let child :=
      match child.text_content with
      | some text =>
        let (w, h) := tr.measure_text text style.font_size
        child.mapDims (fun d =>
          { d with content := { d.content with width := w, height := h } })
      | Option.none =>
        match style.width with
        | some w =>
          child.mapDims (fun d =>
            { d with content := { d.content with width := w } })
        | Option.none =>
          let available := containing_width -
            child.dimensions.margin.horizontal -
            child.dimensions.padding.horizontal -
            child.dimensions.border.horizontal
          child.mapDims (fun d =>
            { d with content := { d.content with width := rmax available 0 } })
    match style.height with
    | some h =>
      child.mapDims (fun d =>
        { d with content := { d.content with height := h } })
    | Option.none =>
      if child.text_content.isNone then
        let (grandchildren, child_height) :=
          child.children.foldl
            (fun (st : List LayoutBox × ℚ) grandchild =>
              let (acc, height) := st
              let grandchild :=
                flexLayoutChildIntrinsic tr fuel grandchild
                  child.dimensions.content.width
              (acc ++ [grandchild],
               height + grandchild.dimensions.margin_box.height))
            ([], 0)
        let child := child.setChildren grandchildren
        child.mapDims (fun d =>
          { d with content := { d.content with height := child_height } })
      else child

/-- layout_flex from layout/flex.rs: the full flex container layout. -/
def layout_flex (tr : TextMeasurer) (fuel : Nat) (layout_box : LayoutBox)
    (containing_width : ℚ) : LayoutBox :=
  let layout_box := layout_box.setupEdges
  let style := layout_box.style
  let content_width :=
    (style.width).getD
      (containing_width - layout_box.dimensions.margin.horizontal -
        layout_box.dimensions.padding.horizontal -
        layout_box.dimensions.border.horizontal)
  let layout_box := layout_box.mapDims (fun d =>
    { d with content := { d.content with width := content_width } })
  let flex_direction := style.flex_direction
  let flex_wrap := style.flex_wrap
  let justify_content := style.justify_content
  let align_items := style.align_items
  let gap := style.gap
  let row_gap := if style.row_gap > 0 then style.row_gap else gap
  let column_gap := if style.column_gap > 0 then style.column_gap else gap
  let is_row := flex_direction = FlexDirection.row ∨
    flex_direction = FlexDirection.rowReverse
  let is_reversed := flex_direction = FlexDirection.rowReverse ∨
    flex_direction = FlexDirection.columnReverse
  let main_gap := if is_row then column_gap else row_gap
  let cross_gap := if is_row then row_gap else column_gap
  let available_main := if is_row then content_width else f32MAX
  let children :=
    layout_box.children.map (fun child =>
      flexLayoutChildIntrinsic tr fuel child content_width)
  let layout_box := layout_box.setChildren children
  let items :=
    children.enum.filter (fun p =>
      p.2.box_type ≠ BoxType.text ∨ p.2.text_content.isSome)
  let items := items.foldl (fun acc it => insertByOrder it acc) []
  let lines := buildFlexLines items flex_wrap available_main main_gap is_row
  let lines := lines.map (fun line =>
    resolve_flexible_lengths line available_main main_gap is_row)
  let lines := lines.map (fun line =>
    position_main_axis line available_main justify_content main_gap is_reversed)
  let lines := lines.map (fun line =>
    position_cross_axis_in_line (calculate_line_cross_size line is_row)
      align_items is_row)
  let (lines, total_cross_size) :=
    position_lines lines cross_gap (flex_wrap = FlexWrap.wrapReverse)
  let lines := apply_positions lines is_row layout_box.dimensions.padding
    layout_box.dimensions.border
  let children :=
    layout_box.children.enum.map (fun p =>
      match lines.findSome? (fun line => line.items.find? (fun it => it.idx = p.1)) with
      | some item => item.layout_box
      | Option.none => p.2)
  let layout_box := layout_box.setChildren children
  let container_height := (style.height).getD total_cross_size
  layout_box.mapDims (fun d =>
    { d with content := { d.content with height := container_height } })

/-! ## layout/grid.rs -/

/-- Rust "as usize" on an i32: two-complement reinterpretation into the
64-bit unsigned range (negative values wrap to huge indices, which the
bounds checks of the grid code then skip). -/
def i32AsUsize (i : Int) : Nat := (i.emod (2 ^ 64)).toNat

/-- GridItem from layout/grid.rs; idx is the position of the child in the
children vector (the Rust struct holds a mutable reference). -/
structure GridItem where
  idx : Nat
  layout_box : LayoutBox
  column_start : Int
  column_end : Int
  row_start : Int
  row_end : Int

structure ResolvedTracks where
  sizes : List ℚ
  positions : List ℚ

/-- layout_child_intrinsic from layout/grid.rs. The source calls to_px on
the stored width and height values (a remnant of an older width type; the
snapshot stores plain pixel values), modelled as using the stored value. -/
def gridLayoutChildIntrinsic (tr : TextMeasurer) :
    Nat → LayoutBox → ℚ → LayoutBox
  | 0, child, _ => child
  | fuel + 1, child, containing_width =>
    let child := child.setupEdges
    let style := child.style
    let child :=
      match child.text_content with
      | some text =>
        let (w, h) := tr.measure_text text style.font_size
        child.mapDims (fun d =>
          { d with content := { d.content with width := w, height := h } })
      | Option.none =>
        match style.width with
        | some w =>
          child.mapDims (fun d =>
            { d with content := { d.content with width := w } })
        | Option.none =>
          let available := containing_width -
            child.dimensions.margin.horizontal -
            child.dimensions.padding.horizontal -
            child.dimensions.border.horizontal
          child.mapDims (fun d =>
            { d with content := { d.content with width := rmax available 0 } })
    match style.height with
    | some h =>
      child.mapDims (fun d =>
        { d with content := { d.content with height := h } })
    | Option.none =>
      if child.text_content.isNone then
        let (grandchildren, child_height) :=
          child.children.foldl
            (fun (st : List LayoutBox × ℚ) grandchild =>
              let (acc, height) := st
              let grandchild :=
                gridLayoutChildIntrinsic tr fuel grandchild
                  child.dimensions.content.width
              (acc ++ [grandchild],
               height + grandchild.dimensions.margin_box.height))
            ([], 0)
        let child := child.setChildren grandchildren
        child.mapDims (fun d =>
          { d with content := { d.content with height := child_height } })
      else child

/-- determine_grid_size from layout/grid.rs. -/
def determine_grid_size (children : List LayoutBox)
    (template_columns template_rows : Nat) : Nat × Nat :=
  let init := (max template_columns 1, max template_rows 1)
  let (max_column, max_row) :=
    (children.enum.foldl
      (fun (st : Nat × Nat) (p : Nat × LayoutBox) =>
        let (max_column, max_row) := st
        let (i, child) := p
        let placement := child.style.grid_column
        let max_column :=
          match placement.ending with
          | some e => max max_column (i32AsUsize e)
          | Option.none =>
            match placement.start with
            | some s => max max_column (i32AsUsize s)
            | Option.none => max_column
        let row_placement := child.style.grid_row
        let max_row :=
          match row_placement.ending with
          | some e => max max_row (i32AsUsize e)
          | Option.none =>
            match row_placement.start with
            | some s => max max_row (i32AsUsize s)
            | Option.none => max_row
        let max_row :=
          if placement.start.isNone ∧ template_columns > 0 then
            max max_row (i / template_columns + 1)
          else max_row
        (max_column, max_row))
      init)
  let max_row :=
    if template_columns > 0 then
      max max_row ((children.length + template_columns - 1) / template_columns)
    else max_row
  (max_column, max_row)

/-- get_item_placement from layout/grid.rs; index is the position in the
filtered item sequence. -/
def get_item_placement (child : LayoutBox) (index : Nat) (num_columns : Nat) :
    Int × Int × Int × Int :=
  let col_placement := child.style.grid_column
  let row_placement := child.style.grid_row
  let (col_start, col_end) :=
    match col_placement.start with
    | some s => (s, (col_placement.ending).getD (s + 1))
    | Option.none =>
      let col : Int := (index % (max num_columns 1) : Nat) + 1
      (col, col + 1)
  let (row_start, row_end) :=
    match row_placement.start with
    | some s => (s, (row_placement.ending).getD (s + 1))
    | Option.none =>
      let row : Int := (index / (max num_columns 1) : Nat) + 1
      (row, row + 1)
  (col_start, col_end, row_start, row_end)

/-- resolve_tracks from layout/grid.rs: fixed sizes are kept, fr units and
auto tracks (treated as 1fr) share the remaining space; positions are
cumulative with the gap between tracks. The two mutation passes of the
source compute exactly the per-index sizes written here. -/
def resolve_tracks (templates : List GridTrackSize) (num_tracks : Nat)
    (available_space gap : ℚ) (auto_size : GridTrackSize) : ResolvedTracks :=
  let actual_num_tracks := max (max num_tracks templates.length) 1
  let total_gaps := gap * ((actual_num_tracks - 1 : Nat) : ℚ)
  let space_for_tracks := rmax (available_space - total_gaps) 0
  let templateAt := fun (i : Nat) => (templates.get? i).getD auto_size
  let fixed_size :=
    ((List.range actual_num_tracks).map (fun i =>
      match templateAt i with
      | .px px => px
      | _ => 0)).sum
  let total_fr :=
    ((List.range actual_num_tracks).map (fun i =>
      match templateAt i with
      | .fr fr => fr
      | .px _ => 0
      | _ => 1)).sum
  let space_for_fr := rmax (space_for_tracks - fixed_size) 0
  let fr_unit_size := if total_fr > 0 then space_for_fr / total_fr else 0
  let sizes :=
    (List.range actual_num_tracks).map (fun i =>
      match templateAt i with
      | .px px => px
      | .fr fr => fr * fr_unit_size
      | _ => fr_unit_size)
  let (positions, _) :=
    sizes.enum.foldl
      (fun (st : List ℚ × ℚ) (p : Nat × ℚ) =>
        let (acc, pos) := st
        let acc := acc ++ [pos]
        let pos := pos + p.2
        let pos := if p.1 < actual_num_tracks - 1 then pos + gap else pos
        (acc, pos))
      ([], 0)
  ⟨sizes, positions⟩

/-- calculate_row_heights from layout/grid.rs: per item, resolve its
spanned width (updating the item box when positive), then raise the height
of its row to the margin-box height of the item, except that a fixed-px
row template pins the row height to at least the template. Returns the
updated items and the row heights, with empty rows floored at 20px. -/
def calculate_row_heights (items : List GridItem) (column_tracks : ResolvedTracks)
    (num_rows : Nat) (row_templates : List GridTrackSize) :
    List GridItem × List ℚ :=
  let (items, heights) :=
    items.foldl
      (fun (st : List GridItem × List ℚ) item =>
        let (acc, heights) := st
        let row_index := i32AsUsize (item.row_start - 1)
        if row_index ≥ num_rows then (acc ++ [item], heights)
        else
          let col_start := i32AsUsize (item.column_start - 1)
          let col_end := i32AsUsize (item.column_end - 1)
          let hi := min col_end column_tracks.sizes.length
          let item_width :=
            (((List.range hi).drop col_start).map (fun i =>
              (column_tracks.sizes.get? i).getD 0)).sum
          let item :=
            if item_width > 0 then
              { item with layout_box :=
                  item.layout_box.mapDims (fun d =>
                    { d with content := { d.content with width :=
                        item_width - d.margin.horizontal - d.padding.horizontal -
                          d.border.horizontal } }) }
            else item
          let item_height := item.layout_box.dimensions.margin_box.height
          let heights :=
            match row_templates.get? row_index with
            | some (.px px) =>
              heights.set row_index (rmax ((heights.get? row_index).getD 0) px)
            | _ =>
              heights.set row_index
                (rmax ((heights.get? row_index).getD 0) item_height)
          (acc ++ [item], heights))
      ([], List.replicate num_rows 0)
  (items, heights.map (fun h => if h = 0 then 20 else h))

/-- resolve_row_tracks from layout/grid.rs. -/
def resolve_row_tracks (heights : List ℚ) (gap : ℚ) : ResolvedTracks :=
  let (positions, _) :=
    heights.enum.foldl
      (fun (st : List ℚ × ℚ) (p : Nat × ℚ) =>
        let (acc, pos) := st
        let acc := acc ++ [pos]
        let pos := pos + p.2
        let pos := if p.1 < heights.length - 1 then pos + gap else pos
        (acc, pos))
      ([], 0)
  ⟨heights, positions⟩

/-- position_grid_item from layout/grid.rs. -/
def position_grid_item (item : GridItem) (column_tracks row_tracks : ResolvedTracks)
    (padding border : EdgeSizes) : GridItem :=
  let col_start := i32AsUsize (item.column_start - 1)
  let row_start := i32AsUsize (item.row_start - 1)
  let x := (column_tracks.positions.get? col_start).getD 0
  let y := (row_tracks.positions.get? row_start).getD 0
  { item with layout_box :=
      item.layout_box.mapDims (fun d =>
        { d with content :=
            { d.content with
              x := x + d.margin.left + padding.left + border.left,
              y := y + d.margin.top + padding.top + border.top } }) }

/-- layout_grid from layout/grid.rs. -/
def layout_grid (tr : TextMeasurer) (fuel : Nat) (layout_box : LayoutBox)
    (containing_width : ℚ) : LayoutBox :=
  let layout_box := layout_box.setupEdges
  let style := layout_box.style
  let content_width :=
    (style.width).getD
      (containing_width - layout_box.dimensions.margin.horizontal -
        layout_box.dimensions.padding.horizontal -
        layout_box.dimensions.border.horizontal)
  let layout_box := layout_box.mapDims (fun d =>
    { d with content := { d.content with width := content_width } })
  let column_templates := style.grid_template_columns
  let row_templates := style.grid_template_rows
  let column_gap :=
    if style.grid_column_gap > 0 then style.grid_column_gap else style.grid_gap
  let row_gap :=
    if style.grid_row_gap > 0 then style.grid_row_gap else style.grid_gap
  let children :=
    layout_box.children.map (fun child =>
      gridLayoutChildIntrinsic tr fuel child content_width)
  let layout_box := layout_box.setChildren children
  let (num_columns, num_rows) :=
    determine_grid_size children column_templates.length row_templates.length
  let column_tracks :=
    resolve_tracks column_templates num_columns content_width column_gap
      style.grid_auto_columns
  let items :=
    ((children.enum.filter (fun p =>
        p.2.box_type ≠ BoxType.text ∨ p.2.text_content.isSome)).enum.map
      (fun q =>
        let (i, (orig, child)) := q
        let placement := get_item_placement child i num_columns
        ({ idx := orig, layout_box := child, column_start := placement.1,
           column_end := placement.2.1, row_start := placement.2.2.1,
           row_end := placement.2.2.2 } : GridItem)))
  let (items, row_heights) :=
    calculate_row_heights items column_tracks num_rows row_templates
  let row_tracks := resolve_row_tracks row_heights row_gap
  let items :=
    items.map (fun item =>
      position_grid_item item column_tracks row_tracks
        layout_box.dimensions.padding layout_box.dimensions.border)
  let children :=
    layout_box.children.enum.map (fun p =>
      match items.find? (fun it => it.idx = p.1) with
      | some item => item.layout_box
      | Option.none => p.2)
  let layout_box := layout_box.setChildren children
  let total_height := ((row_tracks.positions.getLast?).getD 0) +
    ((row_tracks.sizes.getLast?).getD 0)
  let container_height := (style.height).getD total_height
  layout_box.mapDims (fun d =>
    { d with content := { d.content with height := container_height } })

/-! ## layout/table.rs -/

/-- collect_table_rows: one index per direct row, and one per child of a
row group (used only for the emptiness check). -/
def collect_table_rows (layout_box : LayoutBox) : List Nat :=
  layout_box.children.enum.foldl
    (fun rows p =>
      match p.2.box_type with
      | .tableRow => rows ++ [p.1]
      | .tableRowGroup => rows ++ List.replicate p.2.children.length p.1
      | _ => rows)
    []

/-- calculate_column_count: the maximum number of table-cell children in
any row, including rows nested in row groups. -/
def calculate_column_count (children : List LayoutBox) : Nat :=
  children.foldl
    (fun max_columns child =>
      match child.box_type with
      | .tableRow =>
        max max_columns
          (child.children.filter (fun c => c.box_type = BoxType.tableCell)).length
      | .tableRowGroup =>
        child.children.foldl
          (fun max_columns row =>
            if row.box_type = BoxType.tableRow then
              max max_columns
                (row.children.filter
                  (fun c => c.box_type = BoxType.tableCell)).length
            else max_columns)
          max_columns
      | _ => max_columns)
    0

/-- layout_block_child from layout/table.rs (the block fallback used for
captions and for cell contents); like the grid intrinsic pass, the
to_px calls on the stored width and height are modelled as the stored
pixel value. -/
def tableLayoutBlockChild (tr : TextMeasurer) :
    Nat → LayoutBox → ℚ → LayoutBox
  | 0, child, _ => child
  | fuel + 1, child, containing_width =>
    let child := child.setupEdges
    let style := child.style
    let content_width :=
      (style.width).getD
        (containing_width - child.dimensions.margin.horizontal -
          child.dimensions.padding.horizontal -
          child.dimensions.border.horizontal)
    let child := child.mapDims (fun d =>
      { d with content := { d.content with width := content_width } })
    match child.text_content with
    | some text =>
      let (_, height) := tr.measure_text_fast text child.style.font_size
        content_width
      child.mapDims (fun d =>
        { d with content := { d.content with height := height } })
    | Option.none =>
      let (nested, child_y) :=
        child.children.foldl
          (fun (st : List LayoutBox × ℚ) nested =>
            let (acc, child_y) := st
            let nested := tableLayoutBlockChild tr fuel nested content_width
            let nested := nested.mapDims (fun d =>
              { d with content :=
                  { d.content with x := d.margin.left,
                                   y := child_y + d.margin.top } })
            (acc ++ [nested], nested.dimensions.margin_box.bottom))
          ([], 0)
      let child := child.setChildren nested
      child.mapDims (fun d =>
        { d with content := { d.content with height := (style.height).getD child_y } })

/-- layout_table_cell from layout/table.rs. -/
def layout_table_cell (tr : TextMeasurer) (fuel : Nat) (cell : LayoutBox)
    (available_width : ℚ) : LayoutBox :=
  let cell := cell.setupEdges
  let style := cell.style
  let content_width := available_width - cell.dimensions.margin.horizontal -
    cell.dimensions.padding.horizontal - cell.dimensions.border.horizontal
  let cell := cell.mapDims (fun d =>
    { d with content := { d.content with width := content_width } })
  let (contents, child_y) :=
    cell.children.foldl
      (fun (st : List LayoutBox × ℚ) child =>
        let (acc, child_y) := st
        let child := tableLayoutBlockChild tr fuel child content_width
        let child := child.mapDims (fun d =>
          { d with content :=
              { d.content with x := d.margin.left, y := child_y + d.margin.top } })
        (acc ++ [child], child.dimensions.margin_box.bottom))
      ([], 0)
  let cell := cell.setChildren contents
  cell.mapDims (fun d =>
    { d with content := { d.content with height := (style.height).getD child_y } })

/-- layout_table_row from layout/table.rs: lay out the cells at the shared
column width, advancing x by column width plus spacing; the row height is
the max cell margin-box height. Returns the updated row and its height. -/
def layout_table_row (tr : TextMeasurer) (fuel : Nat) (row : LayoutBox)
    (column_width : ℚ) (num_columns : Nat) (border_spacing : ℚ)
    (border_collapse : Bool) : LayoutBox × ℚ :=
  let row := row.setupEdges
  let x0 : ℚ := if border_collapse then 0 else border_spacing
  let (cells, _, max_height) :=
    row.children.foldl
      (fun (st : List LayoutBox × ℚ × ℚ) child =>
        let (acc, x_position, max_height) := st
        if child.box_type = BoxType.tableCell then
          let child := layout_table_cell tr fuel child column_width
          let child := child.mapDims (fun d =>
            { d with content :=
                { d.content with
                  x := x_position + d.margin.left + d.border.left + d.padding.left,
                  y := d.margin.top + d.border.top + d.padding.top } })
          let x_position := x_position + column_width +
            (if border_collapse then 0 else border_spacing)
          let max_height := rmax max_height child.dimensions.margin_box.height
          (acc ++ [child], x_position, max_height)
        else (acc ++ [child], x_position, max_height))
      ([], x0, 0)
  let row := row.setChildren cells
  let row_width :=
    if border_collapse then column_width * (num_columns : ℚ)
    else border_spacing + (column_width + border_spacing) * (num_columns : ℚ)
  let row := row.mapDims (fun d =>
    { d with content :=
        { d.content with width := row_width, height := max_height } })
  (row, max_height)

/-- layout_table from layout/table.rs. -/
def layout_table (tr : TextMeasurer) (fuel : Nat) (layout_box : LayoutBox)
    (containing_width : ℚ) : LayoutBox :=
  let layout_box := layout_box.setupEdges
  let style := layout_box.style
  let border_spacing := style.border_spacing
  let border_collapse := style.border_collapse
  let available_width :=
    (style.width).getD
      (containing_width - layout_box.dimensions.margin.horizontal -
        layout_box.dimensions.padding.horizontal -
        layout_box.dimensions.border.horizontal)
  let rows := collect_table_rows layout_box
  if rows.isEmpty then
    layout_box.mapDims (fun d =>
      { d with content := { d.content with width := available_width, height := 0 } })
  else
    let num_columns := calculate_column_count layout_box.children
    if num_columns = 0 then
      layout_box.mapDims (fun d =>
        { d with content :=
            { d.content with width := available_width, height := 0 } })
    else
      let spacing_width :=
        if border_collapse then 0
        else border_spacing * ((num_columns : ℚ) + 1)
      let column_width := (available_width - spacing_width) / (num_columns : ℚ)
      let y0 : ℚ := if border_collapse then 0 else border_spacing
      let (children, y_position) :=
        layout_box.children.foldl
          (fun (st : List LayoutBox × ℚ) child =>
            let (acc, y_position) := st
            match child.box_type with
            | .tableRow =>
              let (child, row_height) :=
                layout_table_row tr fuel child column_width num_columns
                  border_spacing border_collapse
              let child := child.mapDims (fun d =>
                { d with content :=
                    { d.content with
                      x := layout_box.dimensions.padding.left +
                        layout_box.dimensions.border.left,
                      y := y_position + layout_box.dimensions.padding.top +
                        layout_box.dimensions.border.top } })
              (acc ++ [child],
               y_position + row_height +
                 (if border_collapse then 0 else border_spacing))
            | .tableRowGroup =>
              let (groupRows, group_y) :=
                child.children.foldl
                  (fun (st : List LayoutBox × ℚ) row =>
                    let (racc, group_y) := st
                    if row.box_type = BoxType.tableRow then
                      let (row, row_height) :=
                        layout_table_row tr fuel row column_width num_columns
                          border_spacing border_collapse
                      let row := row.mapDims (fun d =>
                        { d with content :=
                            { d.content with x := 0, y := group_y } })
                      (racc ++ [row],
                       group_y + row_height +
                         (if border_collapse then 0 else border_spacing))
                    else (racc ++ [row], group_y))
                  ([], 0)
              let child := child.setChildren groupRows
              let child := child.mapDims (fun d =>
                { d with content :=
                    { d.content with
                      width := available_width, height := group_y,
                      x := layout_box.dimensions.padding.left +
                        layout_box.dimensions.border.left,
                      y := y_position + layout_box.dimensions.padding.top +
                        layout_box.dimensions.border.top } })
              (acc ++ [child],
               y_position + group_y +
                 (if border_collapse then 0 else border_spacing))
            | _ =>
              let child := tableLayoutBlockChild tr fuel child available_width
              let child := child.mapDims (fun d =>
                { d with content :=
                    { d.content with
                      x := layout_box.dimensions.padding.left +
                        layout_box.dimensions.border.left + d.margin.left,
                      y := y_position + layout_box.dimensions.padding.top +
                        layout_box.dimensions.border.top + d.margin.top } })
              (acc ++ [child], y_position + child.dimensions.margin_box.height))
          ([], y0)
      let layout_box := layout_box.setChildren children
      layout_box.mapDims (fun d =>
        { d with content :=
            { d.content with width := available_width,
                             height := (style.height).getD y_position } })

/-! ## layout/tree.rs: text and image layout -/

/-- LayoutTree::layout_text: measure through the wrap-aware oracle. -/
def layout_text (tr : TextMeasurer) (layout_box : LayoutBox)
    (containing_width : ℚ) : LayoutBox :=
  match layout_box.text_content with
  | some text =>
    let font_size := layout_box.style.font_size
    let (width, height) := tr.measure_text_fast text font_size containing_width
    layout_box.mapDims (fun d =>
      { d with content := { d.content with width := width, height := height } })
  | Option.none => layout_box

/-- LayoutTree::layout_image. -/
def layout_image (layout_box : LayoutBox) (containing_width : ℚ) : LayoutBox :=
  let layout_box := layout_box.setupEdges
  let style := layout_box.style
  let (intrinsic_width, intrinsic_height) :=
    ((layout_box.intrinsic_size).map
      (fun s => ((s.width : ℚ), (s.height : ℚ)))).getD (300, 150)
  let available_width := containing_width -
    layout_box.dimensions.margin.horizontal -
    layout_box.dimensions.padding.horizontal -
    layout_box.dimensions.border.horizontal
  let (final_width, final_height) :=
    match style.width, style.height with
    | some w, some h => (w, h)
    | some w, Option.none =>
      let aspect :=
        if intrinsic_width > 0 then intrinsic_height / intrinsic_width
        else (1 / 2 : ℚ)
      (w, w * aspect)
    | Option.none, some h =>
      let aspect :=
        if intrinsic_height > 0 then intrinsic_width / intrinsic_height
        else (2 : ℚ)
      (h * aspect, h)
    | Option.none, Option.none =>
      if intrinsic_width > available_width ∧ available_width > 0 then
        let scale := available_width / intrinsic_width
        (available_width, intrinsic_height * scale)
      else (intrinsic_width, intrinsic_height)
  layout_box.mapDims (fun d =>
    { d with content :=
        { d.content with width := final_width, height := final_height } })

/-! ## layout/tree.rs: the mutually recursive layout dispatch -/

mutual

/-- LayoutTree::layout: dispatch by box type. -/
def layoutDispatch (tr : TextMeasurer) : Nat → LayoutBox → ℚ → LayoutBox
  | 0, b, _ => b
  | fuel + 1, b, containing_width =>
    match b.box_type with
    | .block => layout_block tr fuel b containing_width
    | .inlineBlock => layout_block tr fuel b containing_width
    | .inline => layout_inline tr fuel b containing_width
    | .text => layout_text tr b containing_width
    | .anonymous => layout_block tr fuel b containing_width
    | .flex => layout_flex tr fuel b containing_width
    | .grid => layout_grid tr fuel b containing_width
    | .image => layout_image b containing_width
    | .table => layout_table tr fuel b containing_width
    | .tableRow => layout_block tr fuel b containing_width
    | .tableCell => layout_block tr fuel b containing_width
    | .tableRowGroup => layout_block tr fuel b containing_width

/-- LayoutTree::layout_block: top-down width from the containing block
(or the explicit width per box-sizing), min/max clamping, children
stacked vertically, bottom-up height (or the explicit height per
box-sizing), min/max clamping. -/
def layout_block (tr : TextMeasurer) : Nat → LayoutBox → ℚ → LayoutBox
  | 0, b, _ => b
  | fuel + 1, layout_box, containing_width =>
    let layout_box := layout_box.setupEdges
    let style := layout_box.style
    let content_width :=
      match style.width with
      | some specified_width =>
        match style.box_sizing with
        | .contentBox => specified_width
        | .borderBox =>
          rmax (specified_width - layout_box.dimensions.padding.horizontal -
            layout_box.dimensions.border.horizontal) 0
      | Option.none =>
        containing_width - layout_box.dimensions.margin.horizontal -
          layout_box.dimensions.padding.horizontal -
          layout_box.dimensions.border.horizontal
    let final_width := content_width
    let final_width :=
      match style.min_width with
      | some min_width => rmax final_width min_width
      | Option.none => final_width
    let final_width :=
      match style.max_width with
      | some max_width => rmin final_width max_width
      | Option.none => final_width
    let layout_box := layout_box.mapDims (fun d =>
      { d with content := { d.content with width := final_width } })
    let (children, child_y) :=
      layout_box.children.foldl
        (fun (st : List LayoutBox × ℚ) child =>
          let (acc, child_y) := st
          let child := layoutDispatch tr fuel child final_width
          let child := child.mapDims (fun d =>
            { d with content :=
                { d.content with
                  x := layout_box.dimensions.padding.left +
                    layout_box.dimensions.border.left + d.margin.left,
                  y := child_y + layout_box.dimensions.padding.top +
                    layout_box.dimensions.border.top + d.margin.top } })
          (acc ++ [child], child.dimensions.margin_box.bottom))
        ([], 0)
    let layout_box := layout_box.setChildren children
    let content_height :=
      match style.height with
      | some specified_height =>
        match style.box_sizing with
        | .contentBox => specified_height
        | .borderBox =>
          rmax (specified_height - layout_box.dimensions.padding.vertical -
            layout_box.dimensions.border.vertical) 0
      | Option.none => child_y
    let final_height := content_height
    let final_height :=
      match style.min_height with
      | some min_height => rmax final_height min_height
      | Option.none => final_height
    let final_height :=
      match style.max_height with
      | some max_height => rmin final_height max_height
      | Option.none => final_height
    layout_box.mapDims (fun d =>
      { d with content := { d.content with height := final_height } })

/-- LayoutTree::layout_inline: children flow left to right, the box takes
their total width and max height. -/
def layout_inline (tr : TextMeasurer) : Nat → LayoutBox → ℚ → LayoutBox
  | 0, b, _ => b
  | fuel + 1, layout_box, containing_width =>
    let (children, total_width, max_height) :=
      layout_box.children.foldl
        (fun (st : List LayoutBox × ℚ × ℚ) child =>
          let (acc, total_width, max_height) := st
          let child := layoutDispatch tr fuel child containing_width
          let child := child.mapDims (fun d =>
            { d with content := { d.content with x := total_width } })
          (acc ++ [child],
           total_width + child.dimensions.margin_box.width,
           rmax max_height child.dimensions.margin_box.height))
        ([], 0, 0)
    let layout_box := layout_box.setChildren children
    layout_box.mapDims (fun d =>
      { d with content :=
          { d.content with width := total_width, height := max_height } })

end

/-! ## layout/tree.rs: building the layout tree -/

/-- LayoutTree::build_layout_tree. The two get_node unwrap calls of the
source are the only failing branches of the construction; the result is
none exactly when one of them would panic (or the fuel runs out). -/
def build_layout_tree (sc : StyleComputer) (doc : Document) :
    Nat → NodeId → Option LayoutBox
  | 0, _ => Option.none
  | fuel + 1, node_id =>
    match doc.get_node node_id with
    | Option.none => Option.none
    | some node =>
      let style := (sc.get_style node_id).getD ComputedStyle.default
      match node.data with
      | .element elem =>
        if elem.tag_name = "script" ∨ elem.tag_name = "style" then
          some (LayoutBox.new .block Option.none)
        else if elem.tag_name = "img" then
          match elem.get_attribute "src" with
          | some src =>
            let layout_box := LayoutBox.new_image src style (some node_id)
            let layout_box :=
              match elem.get_attribute "width" with
              | some w =>
                match parseU32 w with
                | some width =>
                  let layout_box :=
                    if layout_box.intrinsic_size.isNone then
                      layout_box.setIntrinsicSize (some (ImageSize.new width 0))
                    else layout_box
                  match layout_box.intrinsic_size with
                  | some sz =>
                    layout_box.setIntrinsicSize (some { sz with width := width })
                  | Option.none => layout_box
                | Option.none => layout_box
              | Option.none => layout_box
            let layout_box :=
              match elem.get_attribute "height" with
              | some hs =>
                match parseU32 hs with
                | some height =>
                  match layout_box.intrinsic_size with
                  | some sz =>
                    layout_box.setIntrinsicSize (some { sz with height := height })
                  | Option.none =>
                    layout_box.setIntrinsicSize (some (ImageSize.new 0 height))
                | Option.none => layout_box
              | Option.none => layout_box
            some layout_box
          | Option.none => some (LayoutBox.new .block Option.none)
        else
          match style.display with
          | .none => some (LayoutBox.new .block (some node_id))
          | disp =>
            let box_type : BoxType :=
              match disp with
              | .block => .block
              | .inline => .inline
              | .inlineBlock => .inlineBlock
              | .none => .block
              | .flex => .flex
              | .grid => .grid
              | .table => .table
              | .tableRow => .tableRow
              | .tableCell => .tableCell
              | .tableRowGroup => .tableRowGroup
              | .tableHeaderGroup => .tableRowGroup
              | .tableFooterGroup => .tableRowGroup
              | .tableCaption => .block
              | .tableColumn => .block
              | .tableColumnGroup => .block
            let layout_box := (LayoutBox.new box_type (some node_id)).setStyle style
            (doc.childrenOf node_id).foldl
              (fun acc child_id =>
                match acc with
                | Option.none => Option.none
                | some layout_box =>
                  match doc.get_node child_id with
                  | Option.none => Option.none
                  | some _ =>
                    let skip : Bool :=
                      match sc.get_style child_id with
                      | some s => s.display == Display.none
                      | Option.none => false
                    if skip then some layout_box
                    else
                      match build_layout_tree sc doc fuel child_id with
                      | Option.none => Option.none
                      | some child_box =>
                        some (layout_box.setChildren
                          (layout_box.children ++ [child_box])))
              (some layout_box)
      | .text t =>
        let trimmed := t.trim
        if trimmed = "" then some (LayoutBox.new .text Option.none)
        else some (LayoutBox.new_text trimmed style)
      | _ => some (LayoutBox.new .block Option.none)

/-! ## layout/tree.rs: the layout tree -/

structure LayoutTree where
  root : Option LayoutBox
  viewport_width : ℚ
  viewport_height : ℚ
  scroll_y : ℚ
  scroll_animator : ScrollAnimator
  scrollbar_config : ScrollbarConfig
  scrollbar_state : ScrollbarState

def LayoutTree.new (viewport_width viewport_height : ℚ) : LayoutTree :=
  ⟨Option.none, viewport_width, viewport_height, 0, ScrollAnimator.new,
   ScrollbarConfig.default, ScrollbarState.idle⟩

/-- LayoutTree::build with an explicit recursion fuel: nothing at all
happens without a body element; otherwise the body subtree is built, laid
out at the viewport width, positioned so its border box starts at the
origin, and installed as the root. The none result models the panic of a
failed get_node unwrap inside build_layout_tree. -/
def LayoutTree.buildFuel (self : LayoutTree) (doc : Document)
    (sc : StyleComputer) (tr : TextMeasurer) (fuel : Nat) : Option LayoutTree :=
  match doc.get_body with
  | Option.none => some self
  | some body =>
    (build_layout_tree sc doc fuel body).map (fun root_box =>
      let root_box := layoutDispatch tr fuel root_box self.viewport_width
      let root_box := root_box.mapDims (fun d =>
        { d with content :=
            { d.content with
              x := d.margin.left + d.border.left + d.padding.left,
              y := d.margin.top + d.border.top + d.padding.top } })
      { self with root := some root_box })

/-- LayoutTree::content_height. -/
def LayoutTree.content_height (self : LayoutTree) : ℚ :=
  ((self.root).map (fun r => r.dimensions.margin_box.height)).getD 0

/-- LayoutTree::max_scroll. -/
def LayoutTree.maxScroll (self : LayoutTree) : ℚ :=
  rmax (self.content_height - self.viewport_height) 0

/-- LayoutTree::scroll (the non-animated variant). -/
def LayoutTree.scroll (self : LayoutTree) (delta : ℚ) : LayoutTree :=
  { self with scroll_y := rclamp (self.scroll_y + delta) 0 self.maxScroll }

/-- LayoutTree::update_scroll (lerpFactor stands for 1 - exp(-12 dt)). -/
def LayoutTree.update_scroll (self : LayoutTree) (lerpFactor : ℚ) :
    LayoutTree × Bool :=
  let (animator, animating) := self.scroll_animator.update lerpFactor self.maxScroll
  ({ self with scroll_animator := animator, scroll_y := animator.current },
   animating)

/-- LayoutTree::scroll_smooth. -/
def LayoutTree.scroll_smooth (self : LayoutTree) (delta : ℚ) : LayoutTree :=
  { self with scroll_animator := self.scroll_animator.scroll_by delta self.maxScroll }

/-- LayoutTree::scroll_to. -/
def LayoutTree.scroll_to (self : LayoutTree) (position : ℚ) : LayoutTree :=
  { self with scroll_animator := self.scroll_animator.scroll_to position self.maxScroll }

/-- LayoutTree::scroll_immediate. -/
def LayoutTree.scroll_immediate (self : LayoutTree) (position : ℚ) : LayoutTree :=
  let animator := self.scroll_animator.scroll_immediate position self.maxScroll
  { self with scroll_animator := animator, scroll_y := animator.current }

/-- LayoutTree::hit_test_box: descend into the children (topmost first)
only when the point lies inside the border box at the accumulated offset;
return the first hit child, else this box. -/
def hitTestBox : Nat → LayoutBox → ℚ → ℚ → ℚ → ℚ → Option NodeId
  | 0, _, _, _, _, _ => Option.none
  | fuel + 1, layout_box, x, y, offset_x, offset_y =>
    let box_x := offset_x + layout_box.dimensions.content.x
    let box_y := offset_y + layout_box.dimensions.content.y
    let bb := layout_box.dimensions.border_box
    let rect := Rect.new (offset_x + bb.x) (offset_y + bb.y) bb.width bb.height
    if rect.contains x y then
      match layout_box.children.reverse.findSome?
          (fun child => hitTestBox fuel child x y box_x box_y) with
      | some node_id => some node_id
      | Option.none => layout_box.node_id
    else Option.none

/-- LayoutTree::hit_test (fuelled like the other tree recursions). -/
def LayoutTree.hit_test (self : LayoutTree) (fuel : Nat) (x y : ℚ) :
    Option NodeId :=
  match self.root with
  | some root => hitTestBox fuel root x (y + self.scroll_y) 0 0
  | Option.none => Option.none

/-! ## Claims -/

/-- Bounds of the engine clamp to the scroll range. -/
theorem rclamp_range (x m : ℚ) (hm : 0 ≤ m) :
    0 ≤ rclamp x 0 m ∧ rclamp x 0 m ≤ m := by
  refine ⟨le_max_left 0 _, max_le hm (min_le_right x m)⟩

/-- Claim C7: after any scroll_by with arbitrary delta the target lies in
[0, max_scroll]; and whenever the animation settles (an update that clears
the animating flag, or a scroll_immediate), current equals target and lies
in [0, max_scroll]. -/
theorem scroll_animator_clamps_and_settles
    (s : ScrollAnimator) (delta lerpFactor position max_scroll : ℚ)
    (hmax : 0 ≤ max_scroll) :
    (0 ≤ (s.scroll_by delta max_scroll).target ∧
      (s.scroll_by delta max_scroll).target ≤ max_scroll) ∧
    ((s.scroll_immediate position max_scroll).current =
        (s.scroll_immediate position max_scroll).target ∧
      (s.scroll_immediate position max_scroll).animating = false ∧
      0 ≤ (s.scroll_immediate position max_scroll).current ∧
      (s.scroll_immediate position max_scroll).current ≤ max_scroll) ∧
    (s.animating = true →
      (s.update lerpFactor max_scroll).1.animating = false →
      (s.update lerpFactor max_scroll).1.current =
          (s.update lerpFactor max_scroll).1.target ∧
        0 ≤ (s.update lerpFactor max_scroll).1.current ∧
        (s.update lerpFactor max_scroll).1.current ≤ max_scroll) := by
  obtain ⟨h0, h1⟩ := rclamp_range (s.target + delta) max_scroll hmax
  obtain ⟨h2, h3⟩ := rclamp_range position max_scroll hmax
  obtain ⟨h4, h5⟩ := rclamp_range s.target max_scroll hmax
  refine ⟨⟨h0, h1⟩, ⟨rfl, rfl, h2, h3⟩, ?_⟩
  intro hanim
  unfold ScrollAnimator.update
  rw [if_neg (by simp [hanim])]
  dsimp only
  split
  · intro _
    exact ⟨rfl, h4, h5⟩
  · intro hcontra
    simp at hcontra

/-- Witness for C7 at a concrete state and inputs. -/
theorem scroll_animator_clamps_and_settles_witness :
    ((ScrollAnimator.mk 0 0 true).scroll_by 1000 10).target ≤ 10 :=
  (scroll_animator_clamps_and_settles (ScrollAnimator.mk 0 0 true) 1000 (1/2) 5 10
    (by norm_num)).1.2

/-! Projection helpers for the layout-box updaters. -/

theorem LayoutBox.dims_setChildren (b : LayoutBox) (c : List LayoutBox) :
    (b.setChildren c).dimensions = b.dimensions := by
  cases b
  rfl

theorem LayoutBox.dims_mapDims (b : LayoutBox) (f : BoxDimensions → BoxDimensions) :
    (b.mapDims f).dimensions = f b.dimensions := by
  cases b
  rfl

theorem LayoutBox.style_setChildren (b : LayoutBox) (c : List LayoutBox) :
    (b.setChildren c).style = b.style := by
  cases b
  rfl

theorem LayoutBox.style_mapDims (b : LayoutBox) (f : BoxDimensions → BoxDimensions) :
    (b.mapDims f).style = b.style := by
  cases b
  rfl

theorem LayoutBox.style_setDims (b : LayoutBox) (d : BoxDimensions) :
    (b.setDims d).style = b.style := by
  cases b
  rfl

theorem LayoutBox.dims_setupEdges (b : LayoutBox) :
    (b.setupEdges).dimensions =
      { b.dimensions with
        margin := EdgeSizes.new b.style.margin_top b.style.margin_right
          b.style.margin_bottom b.style.margin_left,
        padding := EdgeSizes.new b.style.padding_top b.style.padding_right
          b.style.padding_bottom b.style.padding_left,
        border := EdgeSizes.new b.style.border_top_width b.style.border_right_width
          b.style.border_bottom_width b.style.border_left_width } := by
  cases b
  rfl

theorem LayoutBox.style_setupEdges (b : LayoutBox) :
    (b.setupEdges).style = b.style := by
  cases b
  rfl

/-- Claim C5 counterexample: a block box with width auto but an active
min-width clamp violates the claimed exact width identity. -/
theorem block_width_counterexample :
    (((LayoutBox.new .block Option.none).setStyle
        { ComputedStyle.default with min_width := some 500 }).style.width =
      Option.none) ∧
    (let tm : TextMeasurer := ⟨fun _ _ => (0, 0), fun _ _ _ => (0, 0)⟩
     let b := layout_block tm 1
       ((LayoutBox.new .block Option.none).setStyle
         { ComputedStyle.default with min_width := some 500 }) 100
     b.dimensions.content.width + b.dimensions.margin.horizontal +
       b.dimensions.padding.horizontal + b.dimensions.border.horizontal ≠ 100) := by
  constructor
  · rfl
  · intro tm b
    show b.dimensions.content.width + _ + _ + _ ≠ 100
    norm_num [b, tm, layout_block, LayoutBox.new, LayoutBox.setStyle,
      LayoutBox.setupEdges, LayoutBox.mapDims, LayoutBox.setDims,
      LayoutBox.setChildren, LayoutBox.dimensions, LayoutBox.style,
      LayoutBox.children, BoxDimensions.new, ComputedStyle.default,
      EdgeSizes.new, EdgeSizes.zero, EdgeSizes.horizontal, rmax, rmin,
      Rect.new]

/-- Claim C5 (amended): for a block box with width auto and no min-width
or max-width constraint, the resolved content width plus the horizontal
margin, padding and border totals equals the containing width exactly. -/
theorem block_width_invariant (tr : TextMeasurer) (fuel : Nat) (box : LayoutBox)
    (cw : ℚ) (hw : box.style.width = Option.none)
    (hmin : box.style.min_width = Option.none)
    (hmax : box.style.max_width = Option.none) :
    (layout_block tr (fuel + 1) box cw).dimensions.content.width +
      (layout_block tr (fuel + 1) box cw).dimensions.margin.horizontal +
      (layout_block tr (fuel + 1) box cw).dimensions.padding.horizontal +
      (layout_block tr (fuel + 1) box cw).dimensions.border.horizontal = cw := by
  simp only [layout_block, LayoutBox.style_setupEdges, hw, hmin, hmax,
    LayoutBox.dims_mapDims, LayoutBox.dims_setChildren, LayoutBox.dims_setupEdges,
    LayoutBox.style_mapDims, LayoutBox.style_setChildren, EdgeSizes.horizontal,
    EdgeSizes.new]
  ring

/-- Witness for the amended C5 at a concrete box. -/
theorem block_width_invariant_witness :
    (layout_block ⟨fun _ _ => (0, 0), fun _ _ _ => (0, 0)⟩ 1
        (LayoutBox.new .block Option.none) 100).dimensions.content.width +
      (layout_block ⟨fun _ _ => (0, 0), fun _ _ _ => (0, 0)⟩ 1
        (LayoutBox.new .block Option.none) 100).dimensions.margin.horizontal +
      (layout_block ⟨fun _ _ => (0, 0), fun _ _ _ => (0, 0)⟩ 1
        (LayoutBox.new .block Option.none) 100).dimensions.padding.horizontal +
      (layout_block ⟨fun _ _ => (0, 0), fun _ _ _ => (0, 0)⟩ 1
        (LayoutBox.new .block Option.none) 100).dimensions.border.horizontal = 100 :=
  block_width_invariant ⟨fun _ _ => (0, 0), fun _ _ _ => (0, 0)⟩ 0
    (LayoutBox.new .block Option.none) 100 rfl rfl rfl

/-- A flex item over a box whose margin box is w wide and h tall (all
edges zero), for exercising the main-axis positioning. -/
def mainAxisProbeItem (i : Nat) (w h : ℚ) : FlexItem :=
  ⟨i, (LayoutBox.new .block Option.none).setDims
      { BoxDimensions.new with content := Rect.new 0 0 w h },
    0, 0, 0, 0, 0, 0, 0, 0⟩

/-- The two-item row flex line on which the claimed flex-start spacing
formula fails: the first item is 10 wide but 50 tall. -/
def mainAxisProbeLine : FlexLine :=
  ⟨[mainAxisProbeItem 0 10 50, mainAxisProbeItem 1 20 5], 30, 0⟩

/-- Claim C4: position_main_axis advances the running offset by the MAX of
the margin-box width and height of the previous item, not by its
margin-box width; on a row line under flex-start with zero gap whose first
item is 10 wide and 50 tall, the second item lands at offset 50, not at
the claimed offset 0 + 10 + 0. -/
theorem position_main_axis_flexstart_divergence :
    ((position_main_axis mainAxisProbeLine 100 .flexStart 0 false).items.map
      (fun it => it.main_offset)) = [0, 50] ∧ (50 : ℚ) ≠ 0 + 10 + 0 := by
  constructor
  · norm_num [position_main_axis, mainAxisProbeLine, mainAxisProbeItem,
      LayoutBox.new, LayoutBox.setDims, LayoutBox.dimensions,
      BoxDimensions.new, BoxDimensions.margin_box, BoxDimensions.border_box,
      BoxDimensions.padding_box, EdgeSizes.zero, EdgeSizes.horizontal,
      EdgeSizes.vertical, Rect.new, rmax, List.foldl]
  · norm_num

/-- A flex line does not overflow the available main size, unless it holds
a single item alone. -/
def flexLineOK (a : ℚ) (l : FlexLine) : Prop :=
  l.items.length = 1 ∨ l.main_size ≤ a

/-- The item indices of a flex line. -/
def lineIdxs (l : FlexLine) : List Nat := l.items.map (fun it => it.idx)

theorem build_flex_line_items (items : List FlexItem) (ms : ℚ) (r : Bool) :
    (build_flex_line items ms r).items = items := rfl

theorem build_flex_line_main_size (items : List FlexItem) (ms : ℚ) (r : Bool) :
    (build_flex_line items ms r).main_size = ms := rfl

theorem mkFlexItem_idx (i : Nat) (box : LayoutBox) (r : Bool) :
    (mkFlexItem i box r).idx = i := rfl

/-- One packing step preserves the wrap invariant: every closed line is a
singleton or fits, and the open line is a singleton or its running size
fits. -/
theorem buildFlexLinesStep_inv (w : FlexWrap) (a g : ℚ) (r : Bool)
    (hw : w ≠ FlexWrap.noWrap) (st : List FlexLine × List FlexItem × ℚ)
    (it : Nat × LayoutBox)
    (h1 : ∀ l ∈ st.1, flexLineOK a l)
    (h2 : st.2.1 ≠ [] → (st.2.1.length = 1 ∨ st.2.2 ≤ a)) :
    (∀ l ∈ (buildFlexLinesStep w a g r st it).1, flexLineOK a l) ∧
    ((buildFlexLinesStep w a g r st it).2.1 ≠ [] →
      ((buildFlexLinesStep w a g r st it).2.1.length = 1 ∨
        (buildFlexLinesStep w a g r st it).2.2 ≤ a)) := by
  obtain ⟨lines, cur, size⟩ := st
  obtain ⟨i, box⟩ := it
  simp only [buildFlexLinesStep]
  by_cases hov : (w ≠ FlexWrap.noWrap ∧ ¬ cur.isEmpty ∧
      size + (if cur.isEmpty then 0 else g) + flexOuterMain box r > a)
  · simp only [if_pos hov, List.isEmpty_nil, Bool.not_false, if_neg,
      List.nil_append]
    constructor
    · intro l hl
      rcases List.mem_append.mp hl with hmem | hmem
      · exact h1 l hmem
      · have hl2 : l = build_flex_line cur size r := List.mem_singleton.mp hmem
        subst hl2
        have hcur : cur ≠ [] := by
          intro hc
          subst hc
          simp at hov
        rcases h2 hcur with hlen | hsz
        · exact Or.inl (by simpa [build_flex_line_items] using hlen)
        · exact Or.inr (by simpa [build_flex_line_main_size] using hsz)
    · intro _
      left
      simp
  · simp only [if_neg hov]
    by_cases hemp : cur.isEmpty
    · have hc : cur = [] := List.isEmpty_iff.mp hemp
      subst hc
      simp only [List.isEmpty_nil, Bool.not_false, List.nil_append]
      exact ⟨h1, fun _ => Or.inl (by simp)⟩
    · have hif : (if cur.isEmpty then (0 : ℚ) else g) = g := if_neg hemp
      have hfit : size + g + flexOuterMain box r ≤ a := by
        by_contra hgt
        apply hov
        refine ⟨hw, hemp, ?_⟩
        rw [hif]
        exact lt_of_not_le hgt
      simp only [if_pos hemp]
      refine ⟨h1, fun _ => Or.inr ?_⟩
      exact hfit

/-- One packing step appends exactly the index of the processed item to
the concatenation of the packed indices: items are never dropped, split
or reordered by the packing loop. -/
theorem buildFlexLinesStep_concat (w : FlexWrap) (a g : ℚ) (r : Bool)
    (st : List FlexLine × List FlexItem × ℚ) (it : Nat × LayoutBox) :
    (buildFlexLinesStep w a g r st it).1.flatMap lineIdxs ++
      ((buildFlexLinesStep w a g r st it).2.1.map (fun x => x.idx)) =
    (st.1.flatMap lineIdxs ++ st.2.1.map (fun x => x.idx)) ++ [it.1] := by
  obtain ⟨lines, cur, size⟩ := st
  obtain ⟨i, box⟩ := it
  simp only [buildFlexLinesStep]
  split_ifs <;>
    simp_all [lineIdxs, build_flex_line_items, mkFlexItem_idx]

/-- Folding the packing step preserves the wrap invariant. -/
theorem buildFlexLines_foldl_inv (w : FlexWrap) (a g : ℚ) (r : Bool)
    (hw : w ≠ FlexWrap.noWrap) :
    ∀ (l : List (Nat × LayoutBox)) (st : List FlexLine × List FlexItem × ℚ),
      (∀ ln ∈ st.1, flexLineOK a ln) →
      (st.2.1 ≠ [] → (st.2.1.length = 1 ∨ st.2.2 ≤ a)) →
      (∀ ln ∈ (l.foldl (buildFlexLinesStep w a g r) st).1, flexLineOK a ln) ∧
      ((l.foldl (buildFlexLinesStep w a g r) st).2.1 ≠ [] →
        ((l.foldl (buildFlexLinesStep w a g r) st).2.1.length = 1 ∨
          (l.foldl (buildFlexLinesStep w a g r) st).2.2 ≤ a)) := by
  intro l
  induction l with
  | nil => intro st h1 h2; exact ⟨h1, h2⟩
  | cons x xs ih =>
    intro st h1 h2
    have hstep := buildFlexLinesStep_inv w a g r hw st x h1 h2
    exact ih (buildFlexLinesStep w a g r st x) hstep.1 hstep.2

/-- Folding the packing step concatenates the processed indices. -/
theorem buildFlexLines_foldl_concat (w : FlexWrap) (a g : ℚ) (r : Bool) :
    ∀ (l : List (Nat × LayoutBox)) (st : List FlexLine × List FlexItem × ℚ),
      (l.foldl (buildFlexLinesStep w a g r) st).1.flatMap lineIdxs ++
        ((l.foldl (buildFlexLinesStep w a g r) st).2.1.map (fun x => x.idx)) =
      (st.1.flatMap lineIdxs ++ st.2.1.map (fun x => x.idx)) ++
        l.map (fun p => p.1) := by
  intro l
  induction l with
  | nil => intro st; simp
  | cons x xs ih =>
    intro st
    rw [List.foldl_cons, ih (buildFlexLinesStep w a g r st x),
      buildFlexLinesStep_concat]
    simp

/-- Claim C6: with wrap enabled, the greedy line packing of layout_flex
produces lines whose recorded main size at the pre-wrap check never
exceeds the available main size unless the line holds a single item alone,
and the lines partition the item sequence in order (items never split
across lines). -/
theorem flex_wrap_line_invariant (items : List (Nat × LayoutBox))
    (flex_wrap : FlexWrap) (available main_gap : ℚ) (is_row : Bool)
    (hwrap : flex_wrap ≠ FlexWrap.noWrap) :
    (∀ line ∈ buildFlexLines items flex_wrap available main_gap is_row,
      line.items.length = 1 ∨ line.main_size ≤ available) ∧
    (buildFlexLines items flex_wrap available main_gap is_row).flatMap lineIdxs =
      items.map (fun p => p.1) := by
  have hinv := buildFlexLines_foldl_inv flex_wrap available main_gap is_row hwrap
    items ([], [], 0) (by intro ln h; cases h) (by intro h; cases h rfl)
  have hcat := buildFlexLines_foldl_concat flex_wrap available main_gap is_row
    items ([], [], 0)
  simp only [buildFlexLines]
  obtain ⟨hlines, hcur⟩ := hinv
  by_cases hemp :
    (items.foldl (buildFlexLinesStep flex_wrap available main_gap is_row)
      ([], [], 0)).2.1.isEmpty
  · have hc : (items.foldl (buildFlexLinesStep flex_wrap available main_gap is_row)
        ([], [], 0)).2.1 = [] := List.isEmpty_iff.mp hemp
    rw [if_neg (by simp [hemp])]
    constructor
    · intro line hl
      exact hlines line hl
    · simpa [hc] using hcat
  · rw [if_pos (by simpa using hemp)]
    have hc : (items.foldl (buildFlexLinesStep flex_wrap available main_gap is_row)
        ([], [], 0)).2.1 ≠ [] := by
      intro h
      exact hemp (by simp [h])
    constructor
    · intro line hl
      rcases List.mem_append.mp hl with hmem | hmem
      · exact hlines line hmem
      · have := List.mem_singleton.mp hmem
        subst this
        rcases hcur hc with hlen | hsz
        · exact Or.inl (by simpa [build_flex_line_items] using hlen)
        · exact Or.inr (by simpa [build_flex_line_main_size] using hsz)
    · rw [List.flatMap_append]
      simpa [lineIdxs, build_flex_line_items] using hcat

/-- Witness for C6 at a concrete two-item row that wraps. -/
theorem flex_wrap_line_invariant_witness :
    (buildFlexLines
        [(0, (LayoutBox.new .block Option.none).setDims
            { BoxDimensions.new with content := Rect.new 0 0 10 0 }),
         (1, (LayoutBox.new .block Option.none).setDims
            { BoxDimensions.new with content := Rect.new 0 0 20 0 })]
        FlexWrap.wrap 15 0 true).flatMap lineIdxs = [0, 1] :=
  (flex_wrap_line_invariant
    [(0, (LayoutBox.new .block Option.none).setDims
        { BoxDimensions.new with content := Rect.new 0 0 10 0 }),
     (1, (LayoutBox.new .block Option.none).setDims
        { BoxDimensions.new with content := Rect.new 0 0 20 0 })]
    FlexWrap.wrap 15 0 true (by decide)).2

/-- Claim C10: building the layout tree from a document without a body
element changes nothing: the layout tree state (root box, viewport
dimensions, scroll state, scrollbar state) is returned unchanged. -/
theorem build_without_body_is_noop (t : LayoutTree) (doc : Document)
    (sc : StyleComputer) (tr : TextMeasurer) (fuel : Nat)
    (hbody : doc.get_body = Option.none) :
    t.buildFuel doc sc tr fuel = some t := by
  unfold LayoutTree.buildFuel
  rw [hbody]

/-- Witness for C10 on a concrete document with no body element. -/
theorem build_without_body_is_noop_witness :
    (LayoutTree.new 800 600).buildFuel
        ⟨[⟨0, NodeData.document, Option.none, []⟩], 0⟩
        (StyleComputer.new 800 600) ⟨fun _ _ => (0, 0), fun _ _ _ => (0, 0)⟩ 5 =
      some (LayoutTree.new 800 600) :=
  build_without_body_is_noop (LayoutTree.new 800 600)
    ⟨[⟨0, NodeData.document, Option.none, []⟩], 0⟩
    (StyleComputer.new 800 600) ⟨fun _ _ => (0, 0), fun _ _ _ => (0, 0)⟩ 5 rfl

theorem findSome?_exists {α β : Type _} (f : α → Option β) (b : β) :
    ∀ l : List α, l.findSome? f = some b → ∃ a ∈ l, f a = some b := by
  intro l
  induction l with
  | nil => intro h; simp [List.findSome?] at h
  | cons x xs ih =>
    intro h
    rw [List.findSome?_cons] at h
    cases hf : f x with
    | some v =>
      rw [hf] at h
      simp at h
      exact ⟨x, List.mem_cons_self x xs, by rw [hf, h]⟩
    | none =>
      rw [hf] at h
      obtain ⟨a, ha, hfa⟩ := ih h
      exact ⟨a, List.mem_cons_of_mem x ha, hfa⟩

/-- A chain of boxes from a starting box down to the returned node: every
box along the chain contains the point inside its border box at the
accumulated offsets, each step descends into a child, and the final box
carries the returned node id. -/
inductive HitChain (x y : ℚ) : LayoutBox → ℚ → ℚ → NodeId → Prop where
  | self (box : LayoutBox) (ox oy : ℚ) (id : NodeId) :
      (Rect.new (ox + box.dimensions.border_box.x)
        (oy + box.dimensions.border_box.y)
        box.dimensions.border_box.width
        box.dimensions.border_box.height).contains x y = true →
      box.node_id = some id →
      HitChain x y box ox oy id
  | child (box : LayoutBox) (c : LayoutBox) (ox oy : ℚ) (id : NodeId) :
      (Rect.new (ox + box.dimensions.border_box.x)
        (oy + box.dimensions.border_box.y)
        box.dimensions.border_box.width
        box.dimensions.border_box.height).contains x y = true →
      c ∈ box.children →
      HitChain x y c (ox + box.dimensions.content.x)
        (oy + box.dimensions.content.y) id →
      HitChain x y box ox oy id

/-- Claim C9: hit_test_box descends into children only when the point lies
inside the border box of the current box, so a returned node id always
comes with a chain of boxes from the root of the search to the returned
box, every one of which contains the point; in particular a child
positioned outside the border box of its parent is never returned. -/
theorem hit_test_box_sound (x y : ℚ) :
    ∀ (fuel : Nat) (box : LayoutBox) (ox oy : ℚ) (id : NodeId),
      hitTestBox fuel box x y ox oy = some id → HitChain x y box ox oy id := by
  intro fuel
  induction fuel with
  | zero =>
    intro box ox oy id h
    simp [hitTestBox] at h
  | succ n ih =>
    intro box ox oy id h
    rw [hitTestBox] at h
    by_cases hc :
        (Rect.new (ox + box.dimensions.border_box.x)
          (oy + box.dimensions.border_box.y)
          box.dimensions.border_box.width
          box.dimensions.border_box.height).contains x y = true
    · rw [if_pos hc] at h
      cases hfs : box.children.reverse.findSome?
          (fun child => hitTestBox n child x y
            (ox + box.dimensions.content.x) (oy + box.dimensions.content.y)) with
      | some nid =>
        rw [hfs] at h
        obtain ⟨c, hcmem, hchit⟩ := findSome?_exists _ nid _ hfs
        have hceq : nid = id := by
          simpa using h
        subst hceq
        exact HitChain.child box c ox oy nid hc
          (List.mem_reverse.mp hcmem) (ih c _ _ nid hchit)
      | none =>
        rw [hfs] at h
        exact HitChain.self box ox oy id hc h
    · rw [if_neg hc] at h
      cases h

/-- A concrete box for the hit-test witness: node id 3, border box the
square from the origin to (100, 100). -/
def hitProbeBox : LayoutBox :=
  (LayoutBox.new .block (some 3)).setDims
    { BoxDimensions.new with content := Rect.new 0 0 100 100 }

/-- Witness for C9: a concrete hit produces a concrete chain. -/
theorem hit_test_box_sound_witness :
    hitTestBox 1 hitProbeBox 5 5 0 0 = some 3 ∧
      HitChain 5 5 hitProbeBox 0 0 3 := by
  have h : hitTestBox 1 hitProbeBox 5 5 0 0 = some 3 := by
    norm_num [hitTestBox, hitProbeBox, LayoutBox.new, LayoutBox.setDims,
      LayoutBox.dimensions, LayoutBox.children, LayoutBox.node_id,
      BoxDimensions.new, BoxDimensions.border_box, BoxDimensions.padding_box,
      EdgeSizes.zero, EdgeSizes.horizontal, EdgeSizes.vertical, Rect.new,
      Rect.contains, List.findSome?]
  exact ⟨h, hit_test_box_sound 5 5 1 hitProbeBox 0 0 3 h⟩

/-- The document for the C1 counterexample: a div with id main containing
a p element. -/
def indexProbeDoc : Document :=
  ⟨[⟨0, NodeData.document, Option.none, [1]⟩,
    ⟨1, NodeData.element ⟨"div", [("id", "main")]⟩, some 0, [2]⟩,
    ⟨2, NodeData.element ⟨"p", []⟩, some 1, []⟩], 0⟩

/-- The selector "number-sign main, space, p": subject compound Tag p, one
ancestor compound Id main under a descendant combinator. -/
def indexProbeSel : Selector :=
  ⟨⟨[(⟨[SimpleSelector.tag "p"]⟩, Option.none),
     (⟨[SimpleSelector.id "main"]⟩, some Combinator.descendant)]⟩⟩

def indexProbeRule : Rule :=
  ⟨[indexProbeSel], [⟨"color", Value.color Color.RED, false⟩]⟩

def indexProbeIndex : SelectorIndex :=
  SelectorIndex.build [⟨[indexProbeRule]⟩]

/-- Claim C1: the selector index is NOT complete. get_index_key scans
Selector::simple_selectors, which flattens every compound of the complex
selector, so the descendant selector with subject Tag p and ancestor
Id main is indexed under the id bucket for main; the p element (which has
no id) never consults that bucket, so get_candidate_rules returns no
candidate at all even though ComplexSelector::matches accepts the
selector for that element. -/
theorem selector_index_misses_matching_rule :
    SelectorIndex.get_index_key indexProbeSel = IndexKey.id "main" ∧
    indexProbeSel.matches indexProbeDoc 2 = true ∧
    indexProbeIndex.get_candidate_rules Option.none [] "p" = [] := by
  refine ⟨rfl, rfl, rfl⟩

/-- The arena invariant the Document API maintains: every stored child id
is a valid index (append_child checks the bound), and children are created
after their parent (documents built by the HTML parser), which also makes
the parent-child graph acyclic. -/
def Document.WF (doc : Document) : Prop :=
  ∀ i < doc.nodes.length,
    ∀ c ∈ ((doc.nodes.get? i).map Node.children).getD [], c < doc.nodes.length ∧ i < c

theorem childrenOf_eq (doc : Document) (i : Nat) :
    doc.childrenOf i = ((doc.nodes.get? i).map Node.children).getD [] := by
  unfold Document.childrenOf Document.get_node
  rfl

/-- build_layout_tree never hits a failing branch (a get_node unwrap) and
never runs out of fuel on a well-formed document, for any node it can be
asked to visit. -/
theorem build_layout_tree_total (sc : StyleComputer) (doc : Document)
    (hwf : Document.WF doc) :
    ∀ (fuel : Nat) (node_id : Nat), node_id < doc.nodes.length →
      doc.nodes.length - node_id ≤ fuel →
      (build_layout_tree sc doc fuel node_id).isSome := by
  intro fuel
  induction fuel with
  | zero =>
    intro node_id hlt hfuel
    exfalso
    omega
  | succ n ih =>
    intro node_id hlt hfuel
    have hget : doc.nodes.get? node_id = some (doc.nodes.get ⟨node_id, hlt⟩) :=
      List.get?_eq_get hlt
    have hkids : ∀ c ∈ (doc.nodes.get ⟨node_id, hlt⟩).children,
        c < doc.nodes.length ∧ node_id < c := by
      intro c hc
      exact hwf node_id hlt c (by rw [hget]; exact hc)
    have hfold :
        ∀ (kids : List Nat) (box : LayoutBox),
          (∀ c ∈ kids, c < doc.nodes.length ∧ node_id < c) →
          (kids.foldl
            (fun acc child_id =>
              match acc with
              | Option.none => Option.none
              | some layout_box =>
                match doc.get_node child_id with
                | Option.none => Option.none
                | some _ =>
                  let skip : Bool :=
                    match sc.get_style child_id with
                    | some s => s.display == Display.none
                    | Option.none => false
                  if skip then some layout_box
                  else
                    match build_layout_tree sc doc n child_id with
                    | Option.none => Option.none
                    | some child_box =>
                      some (layout_box.setChildren
                        (layout_box.children ++ [child_box])))
            (some box)).isSome := by
      intro kids
      induction kids with
      | nil => intro box _; simp
      | cons k ks ihk =>
        intro box hks
        obtain ⟨hklt, hkgt⟩ := hks k (List.mem_cons_self k ks)
        have hk : doc.get_node k = some (doc.nodes.get ⟨k, hklt⟩) :=
          List.get?_eq_get hklt
        have hrec : (build_layout_tree sc doc n k).isSome :=
          ih k hklt (by omega)
        obtain ⟨kbox, hkbox⟩ := Option.isSome_iff_exists.mp hrec
        rw [List.foldl_cons]
        rw [hk]
        cases hskip : (match sc.get_style k with
              | some s => s.display == Display.none
              | Option.none => false) with
        | true =>
          simp only [hskip, if_true]
          exact ihk box (fun c hc => hks c (List.mem_cons_of_mem k hc))
        | false =>
          simp only [hskip, Bool.false_eq_true, if_false, hkbox]
          exact ihk _ (fun c hc => hks c (List.mem_cons_of_mem k hc))
    obtain ⟨nd, hnd⟩ : ∃ nd, doc.get_node node_id = some nd :=
      ⟨doc.nodes.get ⟨node_id, hlt⟩, hget⟩
    have hndget : doc.nodes.get? node_id = some nd := hnd
    have hkids2 : ∀ c ∈ doc.childrenOf node_id,
        c < doc.nodes.length ∧ node_id < c := by
      intro c hc
      apply hwf node_id hlt
      rw [childrenOf_eq, hndget] at hc
      rw [hndget]
      exact hc
    rw [build_layout_tree, hnd]
    obtain ⟨nid, ndata, nparent, nchildren⟩ := nd
    cases ndata with
    | document => simp
    | comment s => simp
    | text t =>
      by_cases ht : t.trim = ""
      · simp [ht]
      · simp [ht]
    | element elem =>
      by_cases hscript : elem.tag_name = "script" ∨ elem.tag_name = "style"
      · simp [hscript]
      · simp only [if_neg hscript]
        by_cases himg : elem.tag_name = "img"
        · simp only [if_pos himg]
          cases elem.get_attribute "src" <;> simp
        · simp only [if_neg himg]
          cases ((sc.get_style node_id).getD ComputedStyle.default).display <;>
            first
            | exact hfold (doc.childrenOf node_id) _ hkids2
            | simp

/-- A small well-formed document: document root, a body element, a text
child. -/
def totalProbeDoc : Document :=
  ⟨[⟨0, NodeData.document, Option.none, [1]⟩,
    ⟨1, NodeData.element ⟨"body", []⟩, some 0, [2]⟩,
    ⟨2, NodeData.text "hello", some 1, []⟩], 0⟩

/-- Claim C8: the style and layout core never reaches a failing branch on
missing data. On a well-formed document (child ids in bounds and greater
than the parent id, the arena shape the DOM builder produces),
build_layout_tree returns some box for every node id in bounds whenever
the fuel covers the remaining nodes, so the embedded Option never takes
the value that marks the get_node unwrap panic; and compute_node_styles
asked to style an absent NodeId silently returns the style map unchanged,
for every fuel. -/
theorem style_layout_core_total (sc : StyleComputer) (doc : Document)
    (hwf : Document.WF doc) (node_id : Nat) (hlt : node_id < doc.nodes.length)
    (fuel : Nat) (hfuel : doc.nodes.length ≤ fuel)
    (inlineParse : InlineCssParse) (index : Option SelectorIndex) (vw vh : ℚ)
    (missing : Nat) (hmiss : doc.get_node missing = Option.none)
    (ps : Option ComputedStyle) (m : List (NodeId × ComputedStyle)) (f2 : Nat) :
    (build_layout_tree sc doc fuel node_id).isSome = true ∧
    computeNodeStyles inlineParse doc index vw vh f2 missing ps m = m := by
  constructor
  · exact build_layout_tree_total sc doc hwf fuel node_id hlt (by omega)
  · cases f2 with
    | zero => rfl
    | succ f => simp only [computeNodeStyles, hmiss]

theorem style_layout_core_total_witness :
    Document.WF totalProbeDoc ∧
    totalProbeDoc.get_node 7 = Option.none ∧
    ((build_layout_tree (StyleComputer.new 800 600) totalProbeDoc 3 0).isSome = true ∧
     computeNodeStyles (fun _ => ⟨[]⟩) totalProbeDoc Option.none 800 600 1 7
       Option.none [] = []) :=
  ⟨by unfold Document.WF; decide, rfl,
   style_layout_core_total (StyleComputer.new 800 600) totalProbeDoc
     (by unfold Document.WF; decide) 0 (by decide) 3 (by decide)
     (fun _ => ⟨[]⟩) Option.none 800 600 7 rfl Option.none [] 1⟩

/-- The div element carrying the presentational bgcolor attribute. -/
def presOrderElem : ElementData := ⟨"div", [("bgcolor", "red")]⟩

/-- The same element with an inline style attribute as well. -/
def presOrderElemStyled : ElementData :=
  ⟨"div", [("bgcolor", "red"), ("style", "x")]⟩

def presOrderDoc : Document :=
  ⟨[⟨0, NodeData.document, Option.none, [1]⟩,
    ⟨1, NodeData.element presOrderElem, some 0, []⟩], 0⟩

def presOrderDocStyled : Document :=
  ⟨[⟨0, NodeData.document, Option.none, [1]⟩,
    ⟨1, NodeData.element presOrderElemStyled, some 0, []⟩], 0⟩

/-- A stylesheet with a single universal rule declaring background-color. -/
def presOrderSheet (c : Color) (imp : Bool) : Stylesheet :=
  ⟨[⟨[⟨⟨[(⟨[SimpleSelector.universal]⟩, Option.none)]⟩⟩],
     [⟨"background-color", Value.color c, imp⟩]⟩]⟩

/-- The full style computation on the bgcolor-red element with a universal
background-color blue rule in the stylesheet. -/
def presProbeSC : StyleComputer :=
  (((StyleComputer.new 800 600).add_stylesheet
      (presOrderSheet Color.BLUE false)).compute_styles
    (fun _ => ⟨[]⟩) presOrderDoc)

/-- Claim C2 counterexample: the bgcolor attribute resolves to red and the
presentational pass does store red, but the full pipeline yields blue for
the background, because apply_presentational_attributes runs BEFORE the
stylesheet declaration passes (the source comments call the attributes
lowest priority), not after them as the claim states. -/
theorem presentational_attribute_order_counterexample :
    (Value.keyword "red").to_color = some (Color.rgb 255 0 0) ∧
    (applyPresentationalAttributes ComputedStyle.default presOrderElem
        16).background_color = Color.rgb 255 0 0 ∧
    (presProbeSC.get_style 1).map ComputedStyle.background_color =
      some Color.BLUE ∧
    Color.BLUE ≠ Color.rgb 255 0 0 := by
  refine ⟨rfl, rfl, rfl, ?_⟩
  norm_num [Color.BLUE, Color.rgb, Color.mk.injEq]

/-- Claim C2 (amended): the layers apply in the order presentational
attributes, then stylesheet declarations (non-important pass then
important pass), then the inline style attribute, each overwriting prior
values for the properties it sets. On the bgcolor-red element, a universal
stylesheet rule declaring background-color c, important or not, yields
background c; adding an inline style whose parsed declarations set
background-color c3 yields c3 over both. -/
theorem style_application_order (c c3 : Color) (imp : Bool) :
    (computeElementStyle (fun _ => ⟨[]⟩) presOrderDoc
        (some (SelectorIndex.build [presOrderSheet c imp])) 800 600 1
        presOrderElem Option.none).background_color = c ∧
    (computeElementStyle
        (fun _ => ⟨[⟨[], [⟨"background-color", Value.color c3, false⟩]⟩]⟩)
        presOrderDocStyled
        (some (SelectorIndex.build [presOrderSheet c imp])) 800 600 1
        presOrderElemStyled Option.none).background_color = c3 := by
  refine ⟨?_, ?_⟩ <;> cases imp <;> rfl

/-! Helper facts about the (specificity, source_order) sort key. -/

theorem matchKeyLe_true_of_lt {a b : Specificity} (o1 o2 : Nat)
    (h : Specificity.lt a b = true) : matchKeyLe (a, o1) (b, o2) = true := by
  simp only [matchKeyLe, decide_eq_true_eq]
  exact Or.inl h

theorem matchKeyLe_false_of_lt {a b : Specificity} (o1 o2 : Nat)
    (h : Specificity.lt a b = true) : matchKeyLe (b, o2) (a, o1) = false := by
  rcases a with ⟨x1, y1, z1⟩
  rcases b with ⟨x2, y2, z2⟩
  simp only [Specificity.lt, decide_eq_true_eq] at h
  simp only [matchKeyLe, Specificity.lt, Specificity.mk.injEq,
    decide_eq_false_iff_not, decide_eq_true_eq]
  omega

theorem matchKeyLe_true_of_ord {a : Specificity} (o1 o2 : Nat) (h : o1 ≤ o2) :
    matchKeyLe (a, o1) (a, o2) = true := by
  simp only [matchKeyLe, decide_eq_true_eq]
  exact Or.inr ⟨trivial, h⟩

theorem matchKeyLe_false_of_ord {a : Specificity} (o1 o2 : Nat) (h : o1 < o2) :
    matchKeyLe (a, o2) (a, o1) = false := by
  rcases a with ⟨x, y, z⟩
  simp only [matchKeyLe, Specificity.lt, Specificity.mk.injEq,
    decide_eq_false_iff_not, decide_eq_true_eq]
  omega

/-- Sorting a two-entry matched-rule list whose first key is less than or
equal keeps the order. -/
theorem sortTwo_le (e1 e2 : Specificity × Nat × IndexedRule)
    (h : matchKeyLe (e1.1, e1.2.1) (e2.1, e2.2.1) = true) :
    sortMatchingRules [e1, e2] = [e1, e2] := by
  simp [sortMatchingRules, insertByKey, h]

/-- Sorting a two-entry matched-rule list whose first key is greater swaps
the entries. -/
theorem sortTwo_gt (e1 e2 : Specificity × Nat × IndexedRule)
    (h : matchKeyLe (e1.1, e1.2.1) (e2.1, e2.2.1) = false) :
    sortMatchingRules [e1, e2] = [e2, e1] := by
  simp [sortMatchingRules, insertByKey, h]

/-- A matched-rule entry as compute_node_styles builds them: the
precomputed specificity and source order paired with the indexed rule,
here a universal rule with a single color declaration. -/
def cascadeEntry (s : Specificity) (o : Nat) (c : Color) (imp : Bool) :
    Specificity × Nat × IndexedRule :=
  (s, o,
    ⟨⟨[⟨⟨[(⟨[SimpleSelector.universal]⟩, Option.none)]⟩⟩],
      [⟨"color", Value.color c, imp⟩]⟩,
     ⟨⟨[(⟨[SimpleSelector.universal]⟩, Option.none)]⟩⟩, s, o⟩)

/-- The two declaration passes of compute_node_styles in source order: all
non-important declarations over the sorted rules, then all important
ones. -/
def applyBothPasses (style : ComputedStyle)
    (rules : List (Specificity × Nat × IndexedRule)) (pfs vw vh : ℚ) :
    ComputedStyle :=
  applyDeclPass (applyDeclPass style rules false pfs vw vh) rules true pfs vw vh

/-- Claim C3: matched rules are sorted ascending by the pair (specificity,
source_order) and the declarations are applied in two full passes, normal
then important; hence among normal declarations of the same property the
higher specificity wins whatever the input order, at equal specificity the
later source order wins, and an important declaration beats every normal
one even from lower specificity. -/
theorem cascade_sort_and_two_passes (st : ComputedStyle) (pfs vw vh : ℚ)
    (s1 s2 : Specificity) (o1 o2 : Nat) (c1 c2 : Color)
    (hlt : Specificity.lt s1 s2 = true) (hord : o1 < o2) :
    ((applyBothPasses st (sortMatchingRules
        [cascadeEntry s1 o1 c1 false, cascadeEntry s2 o2 c2 false])
        pfs vw vh).color = c2 ∧
     (applyBothPasses st (sortMatchingRules
        [cascadeEntry s2 o2 c2 false, cascadeEntry s1 o1 c1 false])
        pfs vw vh).color = c2) ∧
    ((applyBothPasses st (sortMatchingRules
        [cascadeEntry s1 o1 c1 false, cascadeEntry s1 o2 c2 false])
        pfs vw vh).color = c2 ∧
     (applyBothPasses st (sortMatchingRules
        [cascadeEntry s1 o2 c2 false, cascadeEntry s1 o1 c1 false])
        pfs vw vh).color = c2) ∧
    ((applyBothPasses st (sortMatchingRules
        [cascadeEntry s1 o1 c1 true, cascadeEntry s2 o2 c2 false])
        pfs vw vh).color = c1 ∧
     (applyBothPasses st (sortMatchingRules
        [cascadeEntry s2 o2 c2 false, cascadeEntry s1 o1 c1 true])
        pfs vw vh).color = c1) := by
  refine ⟨⟨?_, ?_⟩, ⟨?_, ?_⟩, ⟨?_, ?_⟩⟩
  · rw [sortTwo_le _ _ (matchKeyLe_true_of_lt o1 o2 hlt)]
    rfl
  · rw [sortTwo_gt _ _ (matchKeyLe_false_of_lt o1 o2 hlt)]
    rfl
  · rw [sortTwo_le _ _ (matchKeyLe_true_of_ord o1 o2 (Nat.le_of_lt hord))]
    rfl
  · rw [sortTwo_gt _ _ (matchKeyLe_false_of_ord o1 o2 hord)]
    rfl
  · rw [sortTwo_le _ _ (matchKeyLe_true_of_lt o1 o2 hlt)]
    rfl
  · rw [sortTwo_gt _ _ (matchKeyLe_false_of_lt o1 o2 hlt)]
    rfl

/-- Witness for C3 at concrete specificities, orders and colors. -/
theorem cascade_sort_and_two_passes_witness :
    Specificity.lt ⟨0, 0, 0⟩ ⟨0, 0, 1⟩ = true ∧ (0 : Nat) < 1 ∧
    (applyBothPasses ComputedStyle.default (sortMatchingRules
      [cascadeEntry ⟨0, 0, 0⟩ 0 Color.RED false,
       cascadeEntry ⟨0, 0, 1⟩ 1 Color.BLUE false]) 16 800 600).color =
        Color.BLUE :=
  ⟨by decide, by decide,
   (cascade_sort_and_two_passes ComputedStyle.default 16 800 600
     ⟨0, 0, 0⟩ ⟨0, 0, 1⟩ 0 1 Color.RED Color.BLUE (by decide) (by decide)).1.1⟩
